import Mathlib

/-!
Verification development for the StatusBarFileSize plugin
(`src/StatusBarFileSize.py`).

The Python module is shallowly embedded below:

* `file_size_str` and its rendering loop model the size formatter;
* `estimate_file_size` models the chunked size estimator over a `View`
  record that captures the parts of the host editor's buffer API that the
  code reads (content, the sequence of values returned by successive
  `change_count()` calls, encoding name, line-ending name);
* `update_file_size` models the status-update flow, with the filesystem
  and `zlib.compress` supplied as explicit function parameters (they are
  external collaborators of the plugin);
* the debounce machinery (`call_cache`, `_check_call`,
  `update_file_size_debounced`) is modelled as a small state machine.

Machine reals: the Python code stores the running size in a float once the
hexadecimal branch runs, divides IEEE doubles in the formatter's unit loop,
and formats with `"{:.2}"`.  The embedding carries the exact value of every
double as a rational: `fl` below is IEEE round-to-nearest (ties to even) at
53 bits, so `fl (q / d)` is the exact value of the double quotient the
program computes, and `pyFmt2` is CPython's correctly-rounded `"{:.2}"`
applied to that exact value.  (The estimator's accumulator needs no
rounding: sums of integers and exact halves below 2^53 are doubles.)
-/

/-! ### CPython `"{:.2}"` float formatting, modelled on exactly-represented values

`"{:.2}".format(x)` rounds `x` to two significant decimal digits with
ties-to-even, then prints `d1.d2` when the rounded value lies in `[1, 10)`
(always keeping one digit after the point), and otherwise scientific
notation `d1e+XX` / `d1.d2e+XX` with the trailing `.0` of the mantissa
stripped and a two-digit exponent.  Checked against CPython 3 on the values
used in this development.  The model is faithful for arguments `q ≥ 1/10`
(the formatter below only ever receives values `≥ 1`). -/

/-- Fuel-based helper: number of decimal digits of `m` minus one (`0` for `m < 10`).
Structural recursion on the fuel keeps it kernel-reducible. -/
def decExpAux : Nat → Nat → Nat
  | 0, _ => 0
  | fuel + 1, m => if m < 10 then 0 else decExpAux fuel (m / 10) + 1

/-- Decimal exponent of `m ≥ 1`: the unique `e` with `10^e ≤ m < 10^(e+1)`. -/
def decExp (m : Nat) : Nat := decExpAux m m

/-- Round a rational to the nearest integer, ties to even (IEEE / CPython rounding). -/
def roundHalfEven (q : ℚ) : ℤ :=
  let f := ⌊q⌋
  let t := q - (f : ℚ)
  if t < 1 / 2 then f
  else if 1 / 2 < t then f + 1
  else if f % 2 = 0 then f else f + 1

/-- Model of CPython `"{:.2}".format` on a float whose exact value is `q` (for `q ≥ 1/10`). -/
def pyFmt2 (q : ℚ) : String :=
  let e0 : Nat := decExp ⌊q⌋.toNat
  let n0 : ℤ := roundHalfEven (q * 10 / (10 : ℚ) ^ e0)
  let p : ℤ × Nat := if n0 = 100 then (10, e0 + 1) else (n0, e0)
  let d1 := p.1 / 10
  let d2 := p.1 % 10
  if p.2 = 0 then toString d1 ++ "." ++ toString d2
  else
    (if d2 = 0 then toString d1 else toString d1 ++ "." ++ toString d2) ++ "e+" ++
      (if p.2 < 10 then "0" ++ toString p.2 else toString p.2)

/-! ### IEEE double rounding

The loop `size_val /= divisor` divides IEEE doubles (the first division is
Python `int / int`, also correctly rounded).  `fl q` is the exact value of
the double nearest `q`, ties to even — correct for `q ≥ 1` and well below
overflow, which covers every division result the loop can produce from the
sizes in this development (each operand of a division is a previous result
`≥ 1` or the starting size). -/

/-- Fuel-based helper: position of the leading binary digit (`0` for `m < 2`). -/
def natBitsAux : Nat → Nat → Nat
  | 0, _ => 0
  | fuel + 1, m => if m < 2 then 0 else natBitsAux fuel (m / 2) + 1

/-- Binary exponent of `m ≥ 1`: the unique `e` with `2^e ≤ m < 2^(e+1)`. -/
def natBits (m : Nat) : Nat := natBitsAux m m

/-- IEEE-754 double rounding: the exact value of the `binary64` number nearest
to `q` (ties to even), for `1 ≤ q` below the overflow threshold. -/
def fl (q : ℚ) : ℚ :=
  let e := natBits ⌊q⌋.toNat
  if e ≤ 52 then (roundHalfEven (q * 2 ^ (52 - e)) : ℚ) / 2 ^ (52 - e)
  else (roundHalfEven (q / 2 ^ (e - 52)) : ℚ) * 2 ^ (e - 52)

/-! ### The size formatter (`file_size_str`) -/

/-- The `for unit in sizes: size_val /= divisor; if size_val < divisor: break`
loop of `file_size_str`, returning the final `size_val` and loop variable
`unit`; every division is IEEE double division (`fl`).  On the empty list
(never reached: the source iterates over the non-empty literal `"KMGTPEZY"`)
it returns the input unchanged with `'Y'`. -/
def file_size_loop (divisor : ℚ) : ℚ → List Char → ℚ × Char
  | q, [] => (q, 'Y')
  | q, [u] => (fl (q / divisor), u)
  | q, u :: u2 :: rest =>
    let q2 := fl (q / divisor)
    if q2 < divisor then (q2, u) else file_size_loop divisor q2 (u2 :: rest)

/-- The sequence of `size_val` values of the loop on input `q`:
`float_scaled d q j` is the double after `j + 1` IEEE divisions by `d`. -/
def float_scaled (d q : ℚ) : Nat → ℚ
  | 0 => fl (q / d)
  | j + 1 => fl (float_scaled d q j / d)

/-- Model of `file_size_str(size, units)`: format a byte count as a
human-readable string.  `None` propagates; sizes below the divisor are
rendered as integer byte counts; larger sizes are scaled through the loop
and rendered with CPython's `"{:.2}"` format (`pyFmt2`). -/
def file_size_str (size : Option Nat) (units : String) : Option String :=
  match size with
  | none => none
  | some size =>
    let divisor : Nat := if units = "binary" then 1024 else 1000
    let binary_middle : String := if units = "binary" then "i" else ""
    if size < divisor then
      some (toString size ++ " " ++ (if size ≠ 1 then "Bytes" else "Byte"))
    else
      let r := file_size_loop (divisor : ℚ) (size : ℚ) "KMGTPEZY".toList
      some (pyFmt2 r.1 ++ " " ++ String.mk [r.2] ++ binary_middle ++ "B")

/-! ### The size estimator (`estimate_file_size`) and its helpers -/

/-- The sentinel Python-side encoding name for Sublime's "Hexadecimal" display mode. -/
def SPECIAL_HEXADECIMAL : String := "special-hexadecimal"

/-- `ENCODING_MAP`: Sublime encoding name → Python codec name, verbatim from source. -/
def ENCODING_MAP : List (String × String) :=
  [("Undefined", "utf-8"),
   ("Hexadecimal", SPECIAL_HEXADECIMAL),
   ("UTF-8", "utf-8"),
   ("UTF-16 LE", "utf-16le"),
   ("UTF-16 BE", "utf-16be"),
   ("Western (Windows 1252)", "windows-1252"),
   ("Western (ISO 8859-1)", "iso-8859-1"),
   ("Western (ISO 8859-3)", "iso-8859-3"),
   ("Western (ISO 8859-15)", "iso-8859-15"),
   ("Western (Mac Roman)", "mac_roman"),
   ("DOS (CP 437)", "cp-437"),
   ("Arabic (Windows 1256)", "windows-1256"),
   ("Arabic (ISO 8859-6)", "iso-8859-6"),
   ("Baltic (Windows 1257)", "windows-1257"),
   ("Baltic (ISO 8859-4)", "iso-8859-4"),
   ("Celtic (ISO 8859-14)", "iso-8859-14"),
   ("Central European (Windows 1250)", "windows-1250"),
   ("Central European (ISO 8859-2)", "iso-8859-2"),
   ("Cyrillic (Windows 1251)", "windows-1251"),
   ("Cyrillic (Windows 866)", "windows-866"),
   ("Cyrillic (ISO 8859-5)", "iso-8859-5"),
   ("Cyrillic (KOI8-R)", "koi8_r"),
   ("Cyrillic (KOI8-U)", "koi8_u"),
   ("Estonian (ISO 8859-13)", "iso-8859-13"),
   ("Greek (Windows 1253)", "windows-1253"),
   ("Greek (ISO 8859-7)", "iso-8859-7"),
   ("Hebrew (Windows 1255)", "windows-1255"),
   ("Hebrew (ISO 8859-8)", "iso-8859-8"),
   ("Nordic (ISO 8859-10)", "iso-8859-10"),
   ("Romanian (ISO 8859-16)", "iso-8859-16"),
   ("Turkish (Windows 1254)", "windows-1254"),
   ("Turkish (ISO 8859-9)", "iso-8859-9"),
   ("Vietnamese (Windows 1258)", "windows-1258")]

/-- `LINE_ENDINGS_MAP`: Sublime line-ending name → line-ending string. -/
def LINE_ENDINGS_MAP : List (String × String) :=
  [("Unix", "\n"), ("Windows", "\r\n"), ("CR", "\r")]

/-- Chunk size used by the estimator. -/
def BLOCK_SIZE : Nat := 1000

/-- The exceptions that can escape `estimate_file_size`: the source's own
`ViewHasChanged` class, raised when the buffer mutates mid-scan (and caught by
`update_file_size`), and the builtin `LookupError`, raised by `str.encode`
when the codec name cannot be resolved by CPython's registry — a
`LookupError` is not a `UnicodeError`, so the source does not catch it
anywhere and it propagates out to the host. -/
inductive PyExn where
  | ViewHasChanged : PyExn
  | LookupError : PyExn
deriving DecidableEq

deriving instance DecidableEq for Except

/-- Fuel-based body of `ranges`; the fuel bounds the iteration count so that the
definition is structural (hence kernel-reducible).  For `bs ≥ 1` a fuel of
`stop` iterations always suffices, so `ranges` below reproduces the source
generator exactly; `bs = 0` would make the source loop forever. -/
def rangesAux : Nat → Nat → Nat → Nat → List (Nat × Nat)
  | 0, _, _, _ => []
  | fuel + 1, i, stop, bs =>
    if i < stop then (i, min (i + bs) stop) :: rangesAux fuel (i + bs) stop bs else []

/-- `ranges(start, end, bs)` from the source: half-open chunk intervals covering
`[0, end)`.  As in the source, the `start` argument is accepted but unused —
the loop counter always begins at `0`. -/
def ranges (start stop bs : Nat) : List (Nat × Nat) :=
  rangesAux stop 0 stop bs

/-- `count_hex_digits(s)`: the number of hexadecimal digit characters in `s`. -/
def count_hex_digits (s : List Char) : Nat :=
  (s.filter (fun x => "abcdefABCDEF0123456789".toList.contains x)).length

/-- UTF-8 bytes of one character (Lean `Char` is a Unicode scalar value, which
matches the domain on which CPython's utf-8 codec succeeds). -/
def utf8Bytes (c : Char) : List Nat :=
  let n := c.toNat
  if n < 0x80 then [n]
  else if n < 0x800 then [0xC0 + n / 64, 0x80 + n % 64]
  else if n < 0x10000 then [0xE0 + n / 4096, 0x80 + n / 64 % 64, 0x80 + n % 64]
  else [0xF0 + n / 262144, 0x80 + n / 4096 % 64, 0x80 + n / 64 % 64, 0x80 + n % 64]

/-- UTF-16 code units of one character (surrogate pair above U+FFFF). -/
def utf16Units (c : Char) : List Nat :=
  let n := c.toNat
  if n < 0x10000 then [n]
  else [0xD800 + (n - 0x10000) / 1024, 0xDC00 + (n - 0x10000) % 1024]

/-- Per-codec character maps of the single-byte codecs reachable through
`ENCODING_MAP`, generated from CPython's codec data: for each codec, the
list of `(code point, byte)` pairs for the encodable characters above the
shared ASCII range (below U+0080 every one of these codecs agrees with
ASCII).  A character with no entry raises `UnicodeEncodeError` in CPython
(caught by the source as `UnicodeError`). -/
def charmapTables : List (String × List (Nat × Nat)) :=
  [("windows-1252", [(8364, 128), (8218, 130), (402, 131), (8222, 132), (8230, 133), (8224, 134),
      (8225, 135), (710, 136), (8240, 137), (352, 138), (8249, 139), (338, 140), (381, 142), (8216,
      145), (8217, 146), (8220, 147), (8221, 148), (8226, 149), (8211, 150), (8212, 151), (732,
      152), (8482, 153), (353, 154), (8250, 155), (339, 156), (382, 158), (376, 159), (160, 160),
      (161, 161), (162, 162), (163, 163), (164, 164), (165, 165), (166, 166), (167, 167), (168,
      168), (169, 169), (170, 170), (171, 171), (172, 172), (173, 173), (174, 174), (175, 175),
      (176, 176), (177, 177), (178, 178), (179, 179), (180, 180), (181, 181), (182, 182), (183,
      183), (184, 184), (185, 185), (186, 186), (187, 187), (188, 188), (189, 189), (190, 190),
      (191, 191), (192, 192), (193, 193), (194, 194), (195, 195), (196, 196), (197, 197), (198,
      198), (199, 199), (200, 200), (201, 201), (202, 202), (203, 203), (204, 204), (205, 205),
      (206, 206), (207, 207), (208, 208), (209, 209), (210, 210), (211, 211), (212, 212), (213,
      213), (214, 214), (215, 215), (216, 216), (217, 217), (218, 218), (219, 219), (220, 220),
      (221, 221), (222, 222), (223, 223), (224, 224), (225, 225), (226, 226), (227, 227), (228,
      228), (229, 229), (230, 230), (231, 231), (232, 232), (233, 233), (234, 234), (235, 235),
      (236, 236), (237, 237), (238, 238), (239, 239), (240, 240), (241, 241), (242, 242), (243,
      243), (244, 244), (245, 245), (246, 246), (247, 247), (248, 248), (249, 249), (250, 250),
      (251, 251), (252, 252), (253, 253), (254, 254), (255, 255)]),
  ("iso-8859-1", [(128, 128), (129, 129), (130, 130), (131, 131), (132, 132), (133, 133), (134,
      134), (135, 135), (136, 136), (137, 137), (138, 138), (139, 139), (140, 140), (141, 141),
      (142, 142), (143, 143), (144, 144), (145, 145), (146, 146), (147, 147), (148, 148), (149,
      149), (150, 150), (151, 151), (152, 152), (153, 153), (154, 154), (155, 155), (156, 156),
      (157, 157), (158, 158), (159, 159), (160, 160), (161, 161), (162, 162), (163, 163), (164,
      164), (165, 165), (166, 166), (167, 167), (168, 168), (169, 169), (170, 170), (171, 171),
      (172, 172), (173, 173), (174, 174), (175, 175), (176, 176), (177, 177), (178, 178), (179,
      179), (180, 180), (181, 181), (182, 182), (183, 183), (184, 184), (185, 185), (186, 186),
      (187, 187), (188, 188), (189, 189), (190, 190), (191, 191), (192, 192), (193, 193), (194,
      194), (195, 195), (196, 196), (197, 197), (198, 198), (199, 199), (200, 200), (201, 201),
      (202, 202), (203, 203), (204, 204), (205, 205), (206, 206), (207, 207), (208, 208), (209,
      209), (210, 210), (211, 211), (212, 212), (213, 213), (214, 214), (215, 215), (216, 216),
      (217, 217), (218, 218), (219, 219), (220, 220), (221, 221), (222, 222), (223, 223), (224,
      224), (225, 225), (226, 226), (227, 227), (228, 228), (229, 229), (230, 230), (231, 231),
      (232, 232), (233, 233), (234, 234), (235, 235), (236, 236), (237, 237), (238, 238), (239,
      239), (240, 240), (241, 241), (242, 242), (243, 243), (244, 244), (245, 245), (246, 246),
      (247, 247), (248, 248), (249, 249), (250, 250), (251, 251), (252, 252), (253, 253), (254,
      254), (255, 255)]),
  ("iso-8859-3", [(128, 128), (129, 129), (130, 130), (131, 131), (132, 132), (133, 133), (134,
      134), (135, 135), (136, 136), (137, 137), (138, 138), (139, 139), (140, 140), (141, 141),
      (142, 142), (143, 143), (144, 144), (145, 145), (146, 146), (147, 147), (148, 148), (149,
      149), (150, 150), (151, 151), (152, 152), (153, 153), (154, 154), (155, 155), (156, 156),
      (157, 157), (158, 158), (159, 159), (160, 160), (294, 161), (728, 162), (163, 163), (164,
      164), (292, 166), (167, 167), (168, 168), (304, 169), (350, 170), (286, 171), (308, 172),
      (173, 173), (379, 175), (176, 176), (295, 177), (178, 178), (179, 179), (180, 180), (181,
      181), (293, 182), (183, 183), (184, 184), (305, 185), (351, 186), (287, 187), (309, 188),
      (189, 189), (380, 191), (192, 192), (193, 193), (194, 194), (196, 196), (266, 197), (264,
      198), (199, 199), (200, 200), (201, 201), (202, 202), (203, 203), (204, 204), (205, 205),
      (206, 206), (207, 207), (209, 209), (210, 210), (211, 211), (212, 212), (288, 213), (214,
      214), (215, 215), (284, 216), (217, 217), (218, 218), (219, 219), (220, 220), (364, 221),
      (348, 222), (223, 223), (224, 224), (225, 225), (226, 226), (228, 228), (267, 229), (265,
      230), (231, 231), (232, 232), (233, 233), (234, 234), (235, 235), (236, 236), (237, 237),
      (238, 238), (239, 239), (241, 241), (242, 242), (243, 243), (244, 244), (289, 245), (246,
      246), (247, 247), (285, 248), (249, 249), (250, 250), (251, 251), (252, 252), (365, 253),
      (349, 254), (729, 255)]),
  ("iso-8859-15", [(128, 128), (129, 129), (130, 130), (131, 131), (132, 132), (133, 133), (134,
      134), (135, 135), (136, 136), (137, 137), (138, 138), (139, 139), (140, 140), (141, 141),
      (142, 142), (143, 143), (144, 144), (145, 145), (146, 146), (147, 147), (148, 148), (149,
      149), (150, 150), (151, 151), (152, 152), (153, 153), (154, 154), (155, 155), (156, 156),
      (157, 157), (158, 158), (159, 159), (160, 160), (161, 161), (162, 162), (163, 163), (8364,
      164), (165, 165), (352, 166), (167, 167), (353, 168), (169, 169), (170, 170), (171, 171),
      (172, 172), (173, 173), (174, 174), (175, 175), (176, 176), (177, 177), (178, 178), (179,
      179), (381, 180), (181, 181), (182, 182), (183, 183), (382, 184), (185, 185), (186, 186),
      (187, 187), (338, 188), (339, 189), (376, 190), (191, 191), (192, 192), (193, 193), (194,
      194), (195, 195), (196, 196), (197, 197), (198, 198), (199, 199), (200, 200), (201, 201),
      (202, 202), (203, 203), (204, 204), (205, 205), (206, 206), (207, 207), (208, 208), (209,
      209), (210, 210), (211, 211), (212, 212), (213, 213), (214, 214), (215, 215), (216, 216),
      (217, 217), (218, 218), (219, 219), (220, 220), (221, 221), (222, 222), (223, 223), (224,
      224), (225, 225), (226, 226), (227, 227), (228, 228), (229, 229), (230, 230), (231, 231),
      (232, 232), (233, 233), (234, 234), (235, 235), (236, 236), (237, 237), (238, 238), (239,
      239), (240, 240), (241, 241), (242, 242), (243, 243), (244, 244), (245, 245), (246, 246),
      (247, 247), (248, 248), (249, 249), (250, 250), (251, 251), (252, 252), (253, 253), (254,
      254), (255, 255)]),
  ("mac_roman", [(196, 128), (197, 129), (199, 130), (201, 131), (209, 132), (214, 133), (220,
      134), (225, 135), (224, 136), (226, 137), (228, 138), (227, 139), (229, 140), (231, 141),
      (233, 142), (232, 143), (234, 144), (235, 145), (237, 146), (236, 147), (238, 148), (239,
      149), (241, 150), (243, 151), (242, 152), (244, 153), (246, 154), (245, 155), (250, 156),
      (249, 157), (251, 158), (252, 159), (8224, 160), (176, 161), (162, 162), (163, 163), (167,
      164), (8226, 165), (182, 166), (223, 167), (174, 168), (169, 169), (8482, 170), (180, 171),
      (168, 172), (8800, 173), (198, 174), (216, 175), (8734, 176), (177, 177), (8804, 178), (8805,
      179), (165, 180), (181, 181), (8706, 182), (8721, 183), (8719, 184), (960, 185), (8747, 186),
      (170, 187), (186, 188), (937, 189), (230, 190), (248, 191), (191, 192), (161, 193), (172,
      194), (8730, 195), (402, 196), (8776, 197), (8710, 198), (171, 199), (187, 200), (8230, 201),
      (160, 202), (192, 203), (195, 204), (213, 205), (338, 206), (339, 207), (8211, 208), (8212,
      209), (8220, 210), (8221, 211), (8216, 212), (8217, 213), (247, 214), (9674, 215), (255,
      216), (376, 217), (8260, 218), (8364, 219), (8249, 220), (8250, 221), (64257, 222), (64258,
      223), (8225, 224), (183, 225), (8218, 226), (8222, 227), (8240, 228), (194, 229), (202, 230),
      (193, 231), (203, 232), (200, 233), (205, 234), (206, 235), (207, 236), (204, 237), (211,
      238), (212, 239), (63743, 240), (210, 241), (218, 242), (219, 243), (217, 244), (305, 245),
      (710, 246), (732, 247), (175, 248), (728, 249), (729, 250), (730, 251), (184, 252), (733,
      253), (731, 254), (711, 255)]),
  ("windows-1256", [(8364, 128), (1662, 129), (8218, 130), (402, 131), (8222, 132), (8230, 133),
      (8224, 134), (8225, 135), (710, 136), (8240, 137), (1657, 138), (8249, 139), (338, 140),
      (1670, 141), (1688, 142), (1672, 143), (1711, 144), (8216, 145), (8217, 146), (8220, 147),
      (8221, 148), (8226, 149), (8211, 150), (8212, 151), (1705, 152), (8482, 153), (1681, 154),
      (8250, 155), (339, 156), (8204, 157), (8205, 158), (1722, 159), (160, 160), (1548, 161),
      (162, 162), (163, 163), (164, 164), (165, 165), (166, 166), (167, 167), (168, 168), (169,
      169), (1726, 170), (171, 171), (172, 172), (173, 173), (174, 174), (175, 175), (176, 176),
      (177, 177), (178, 178), (179, 179), (180, 180), (181, 181), (182, 182), (183, 183), (184,
      184), (185, 185), (1563, 186), (187, 187), (188, 188), (189, 189), (190, 190), (1567, 191),
      (1729, 192), (1569, 193), (1570, 194), (1571, 195), (1572, 196), (1573, 197), (1574, 198),
      (1575, 199), (1576, 200), (1577, 201), (1578, 202), (1579, 203), (1580, 204), (1581, 205),
      (1582, 206), (1583, 207), (1584, 208), (1585, 209), (1586, 210), (1587, 211), (1588, 212),
      (1589, 213), (1590, 214), (215, 215), (1591, 216), (1592, 217), (1593, 218), (1594, 219),
      (1600, 220), (1601, 221), (1602, 222), (1603, 223), (224, 224), (1604, 225), (226, 226),
      (1605, 227), (1606, 228), (1607, 229), (1608, 230), (231, 231), (232, 232), (233, 233), (234,
      234), (235, 235), (1609, 236), (1610, 237), (238, 238), (239, 239), (1611, 240), (1612, 241),
      (1613, 242), (1614, 243), (244, 244), (1615, 245), (1616, 246), (247, 247), (1617, 248),
      (249, 249), (1618, 250), (251, 251), (252, 252), (8206, 253), (8207, 254), (1746, 255)]),
  ("iso-8859-6", [(128, 128), (129, 129), (130, 130), (131, 131), (132, 132), (133, 133), (134,
      134), (135, 135), (136, 136), (137, 137), (138, 138), (139, 139), (140, 140), (141, 141),
      (142, 142), (143, 143), (144, 144), (145, 145), (146, 146), (147, 147), (148, 148), (149,
      149), (150, 150), (151, 151), (152, 152), (153, 153), (154, 154), (155, 155), (156, 156),
      (157, 157), (158, 158), (159, 159), (160, 160), (164, 164), (1548, 172), (173, 173), (1563,
      187), (1567, 191), (1569, 193), (1570, 194), (1571, 195), (1572, 196), (1573, 197), (1574,
      198), (1575, 199), (1576, 200), (1577, 201), (1578, 202), (1579, 203), (1580, 204), (1581,
      205), (1582, 206), (1583, 207), (1584, 208), (1585, 209), (1586, 210), (1587, 211), (1588,
      212), (1589, 213), (1590, 214), (1591, 215), (1592, 216), (1593, 217), (1594, 218), (1600,
      224), (1601, 225), (1602, 226), (1603, 227), (1604, 228), (1605, 229), (1606, 230), (1607,
      231), (1608, 232), (1609, 233), (1610, 234), (1611, 235), (1612, 236), (1613, 237), (1614,
      238), (1615, 239), (1616, 240), (1617, 241), (1618, 242)]),
  ("windows-1257", [(8364, 128), (8218, 130), (8222, 132), (8230, 133), (8224, 134), (8225, 135),
      (8240, 137), (8249, 139), (168, 141), (711, 142), (184, 143), (8216, 145), (8217, 146),
      (8220, 147), (8221, 148), (8226, 149), (8211, 150), (8212, 151), (8482, 153), (8250, 155),
      (175, 157), (731, 158), (160, 160), (162, 162), (163, 163), (164, 164), (166, 166), (167,
      167), (216, 168), (169, 169), (342, 170), (171, 171), (172, 172), (173, 173), (174, 174),
      (198, 175), (176, 176), (177, 177), (178, 178), (179, 179), (180, 180), (181, 181), (182,
      182), (183, 183), (248, 184), (185, 185), (343, 186), (187, 187), (188, 188), (189, 189),
      (190, 190), (230, 191), (260, 192), (302, 193), (256, 194), (262, 195), (196, 196), (197,
      197), (280, 198), (274, 199), (268, 200), (201, 201), (377, 202), (278, 203), (290, 204),
      (310, 205), (298, 206), (315, 207), (352, 208), (323, 209), (325, 210), (211, 211), (332,
      212), (213, 213), (214, 214), (215, 215), (370, 216), (321, 217), (346, 218), (362, 219),
      (220, 220), (379, 221), (381, 222), (223, 223), (261, 224), (303, 225), (257, 226), (263,
      227), (228, 228), (229, 229), (281, 230), (275, 231), (269, 232), (233, 233), (378, 234),
      (279, 235), (291, 236), (311, 237), (299, 238), (316, 239), (353, 240), (324, 241), (326,
      242), (243, 243), (333, 244), (245, 245), (246, 246), (247, 247), (371, 248), (322, 249),
      (347, 250), (363, 251), (252, 252), (380, 253), (382, 254), (729, 255)]),
  ("iso-8859-4", [(128, 128), (129, 129), (130, 130), (131, 131), (132, 132), (133, 133), (134,
      134), (135, 135), (136, 136), (137, 137), (138, 138), (139, 139), (140, 140), (141, 141),
      (142, 142), (143, 143), (144, 144), (145, 145), (146, 146), (147, 147), (148, 148), (149,
      149), (150, 150), (151, 151), (152, 152), (153, 153), (154, 154), (155, 155), (156, 156),
      (157, 157), (158, 158), (159, 159), (160, 160), (260, 161), (312, 162), (342, 163), (164,
      164), (296, 165), (315, 166), (167, 167), (168, 168), (352, 169), (274, 170), (290, 171),
      (358, 172), (173, 173), (381, 174), (175, 175), (176, 176), (261, 177), (731, 178), (343,
      179), (180, 180), (297, 181), (316, 182), (711, 183), (184, 184), (353, 185), (275, 186),
      (291, 187), (359, 188), (330, 189), (382, 190), (331, 191), (256, 192), (193, 193), (194,
      194), (195, 195), (196, 196), (197, 197), (198, 198), (302, 199), (268, 200), (201, 201),
      (280, 202), (203, 203), (278, 204), (205, 205), (206, 206), (298, 207), (272, 208), (325,
      209), (332, 210), (310, 211), (212, 212), (213, 213), (214, 214), (215, 215), (216, 216),
      (370, 217), (218, 218), (219, 219), (220, 220), (360, 221), (362, 222), (223, 223), (257,
      224), (225, 225), (226, 226), (227, 227), (228, 228), (229, 229), (230, 230), (303, 231),
      (269, 232), (233, 233), (281, 234), (235, 235), (279, 236), (237, 237), (238, 238), (299,
      239), (273, 240), (326, 241), (333, 242), (311, 243), (244, 244), (245, 245), (246, 246),
      (247, 247), (248, 248), (371, 249), (250, 250), (251, 251), (252, 252), (361, 253), (363,
      254), (729, 255)]),
  ("iso-8859-14", [(128, 128), (129, 129), (130, 130), (131, 131), (132, 132), (133, 133), (134,
      134), (135, 135), (136, 136), (137, 137), (138, 138), (139, 139), (140, 140), (141, 141),
      (142, 142), (143, 143), (144, 144), (145, 145), (146, 146), (147, 147), (148, 148), (149,
      149), (150, 150), (151, 151), (152, 152), (153, 153), (154, 154), (155, 155), (156, 156),
      (157, 157), (158, 158), (159, 159), (160, 160), (7682, 161), (7683, 162), (163, 163), (266,
      164), (267, 165), (7690, 166), (167, 167), (7808, 168), (169, 169), (7810, 170), (7691, 171),
      (7922, 172), (173, 173), (174, 174), (376, 175), (7710, 176), (7711, 177), (288, 178), (289,
      179), (7744, 180), (7745, 181), (182, 182), (7766, 183), (7809, 184), (7767, 185), (7811,
      186), (7776, 187), (7923, 188), (7812, 189), (7813, 190), (7777, 191), (192, 192), (193,
      193), (194, 194), (195, 195), (196, 196), (197, 197), (198, 198), (199, 199), (200, 200),
      (201, 201), (202, 202), (203, 203), (204, 204), (205, 205), (206, 206), (207, 207), (372,
      208), (209, 209), (210, 210), (211, 211), (212, 212), (213, 213), (214, 214), (7786, 215),
      (216, 216), (217, 217), (218, 218), (219, 219), (220, 220), (221, 221), (374, 222), (223,
      223), (224, 224), (225, 225), (226, 226), (227, 227), (228, 228), (229, 229), (230, 230),
      (231, 231), (232, 232), (233, 233), (234, 234), (235, 235), (236, 236), (237, 237), (238,
      238), (239, 239), (373, 240), (241, 241), (242, 242), (243, 243), (244, 244), (245, 245),
      (246, 246), (7787, 247), (248, 248), (249, 249), (250, 250), (251, 251), (252, 252), (253,
      253), (375, 254), (255, 255)]),
  ("windows-1250", [(8364, 128), (8218, 130), (8222, 132), (8230, 133), (8224, 134), (8225, 135),
      (8240, 137), (352, 138), (8249, 139), (346, 140), (356, 141), (381, 142), (377, 143), (8216,
      145), (8217, 146), (8220, 147), (8221, 148), (8226, 149), (8211, 150), (8212, 151), (8482,
      153), (353, 154), (8250, 155), (347, 156), (357, 157), (382, 158), (378, 159), (160, 160),
      (711, 161), (728, 162), (321, 163), (164, 164), (260, 165), (166, 166), (167, 167), (168,
      168), (169, 169), (350, 170), (171, 171), (172, 172), (173, 173), (174, 174), (379, 175),
      (176, 176), (177, 177), (731, 178), (322, 179), (180, 180), (181, 181), (182, 182), (183,
      183), (184, 184), (261, 185), (351, 186), (187, 187), (317, 188), (733, 189), (318, 190),
      (380, 191), (340, 192), (193, 193), (194, 194), (258, 195), (196, 196), (313, 197), (262,
      198), (199, 199), (268, 200), (201, 201), (280, 202), (203, 203), (282, 204), (205, 205),
      (206, 206), (270, 207), (272, 208), (323, 209), (327, 210), (211, 211), (212, 212), (336,
      213), (214, 214), (215, 215), (344, 216), (366, 217), (218, 218), (368, 219), (220, 220),
      (221, 221), (354, 222), (223, 223), (341, 224), (225, 225), (226, 226), (259, 227), (228,
      228), (314, 229), (263, 230), (231, 231), (269, 232), (233, 233), (281, 234), (235, 235),
      (283, 236), (237, 237), (238, 238), (271, 239), (273, 240), (324, 241), (328, 242), (243,
      243), (244, 244), (337, 245), (246, 246), (247, 247), (345, 248), (367, 249), (250, 250),
      (369, 251), (252, 252), (253, 253), (355, 254), (729, 255)]),
  ("iso-8859-2", [(128, 128), (129, 129), (130, 130), (131, 131), (132, 132), (133, 133), (134,
      134), (135, 135), (136, 136), (137, 137), (138, 138), (139, 139), (140, 140), (141, 141),
      (142, 142), (143, 143), (144, 144), (145, 145), (146, 146), (147, 147), (148, 148), (149,
      149), (150, 150), (151, 151), (152, 152), (153, 153), (154, 154), (155, 155), (156, 156),
      (157, 157), (158, 158), (159, 159), (160, 160), (260, 161), (728, 162), (321, 163), (164,
      164), (317, 165), (346, 166), (167, 167), (168, 168), (352, 169), (350, 170), (356, 171),
      (377, 172), (173, 173), (381, 174), (379, 175), (176, 176), (261, 177), (731, 178), (322,
      179), (180, 180), (318, 181), (347, 182), (711, 183), (184, 184), (353, 185), (351, 186),
      (357, 187), (378, 188), (733, 189), (382, 190), (380, 191), (340, 192), (193, 193), (194,
      194), (258, 195), (196, 196), (313, 197), (262, 198), (199, 199), (268, 200), (201, 201),
      (280, 202), (203, 203), (282, 204), (205, 205), (206, 206), (270, 207), (272, 208), (323,
      209), (327, 210), (211, 211), (212, 212), (336, 213), (214, 214), (215, 215), (344, 216),
      (366, 217), (218, 218), (368, 219), (220, 220), (221, 221), (354, 222), (223, 223), (341,
      224), (225, 225), (226, 226), (259, 227), (228, 228), (314, 229), (263, 230), (231, 231),
      (269, 232), (233, 233), (281, 234), (235, 235), (283, 236), (237, 237), (238, 238), (271,
      239), (273, 240), (324, 241), (328, 242), (243, 243), (244, 244), (337, 245), (246, 246),
      (247, 247), (345, 248), (367, 249), (250, 250), (369, 251), (252, 252), (253, 253), (355,
      254), (729, 255)]),
  ("windows-1251", [(1026, 128), (1027, 129), (8218, 130), (1107, 131), (8222, 132), (8230, 133),
      (8224, 134), (8225, 135), (8364, 136), (8240, 137), (1033, 138), (8249, 139), (1034, 140),
      (1036, 141), (1035, 142), (1039, 143), (1106, 144), (8216, 145), (8217, 146), (8220, 147),
      (8221, 148), (8226, 149), (8211, 150), (8212, 151), (8482, 153), (1113, 154), (8250, 155),
      (1114, 156), (1116, 157), (1115, 158), (1119, 159), (160, 160), (1038, 161), (1118, 162),
      (1032, 163), (164, 164), (1168, 165), (166, 166), (167, 167), (1025, 168), (169, 169), (1028,
      170), (171, 171), (172, 172), (173, 173), (174, 174), (1031, 175), (176, 176), (177, 177),
      (1030, 178), (1110, 179), (1169, 180), (181, 181), (182, 182), (183, 183), (1105, 184),
      (8470, 185), (1108, 186), (187, 187), (1112, 188), (1029, 189), (1109, 190), (1111, 191),
      (1040, 192), (1041, 193), (1042, 194), (1043, 195), (1044, 196), (1045, 197), (1046, 198),
      (1047, 199), (1048, 200), (1049, 201), (1050, 202), (1051, 203), (1052, 204), (1053, 205),
      (1054, 206), (1055, 207), (1056, 208), (1057, 209), (1058, 210), (1059, 211), (1060, 212),
      (1061, 213), (1062, 214), (1063, 215), (1064, 216), (1065, 217), (1066, 218), (1067, 219),
      (1068, 220), (1069, 221), (1070, 222), (1071, 223), (1072, 224), (1073, 225), (1074, 226),
      (1075, 227), (1076, 228), (1077, 229), (1078, 230), (1079, 231), (1080, 232), (1081, 233),
      (1082, 234), (1083, 235), (1084, 236), (1085, 237), (1086, 238), (1087, 239), (1088, 240),
      (1089, 241), (1090, 242), (1091, 243), (1092, 244), (1093, 245), (1094, 246), (1095, 247),
      (1096, 248), (1097, 249), (1098, 250), (1099, 251), (1100, 252), (1101, 253), (1102, 254),
      (1103, 255)]),
  ("iso-8859-5", [(128, 128), (129, 129), (130, 130), (131, 131), (132, 132), (133, 133), (134,
      134), (135, 135), (136, 136), (137, 137), (138, 138), (139, 139), (140, 140), (141, 141),
      (142, 142), (143, 143), (144, 144), (145, 145), (146, 146), (147, 147), (148, 148), (149,
      149), (150, 150), (151, 151), (152, 152), (153, 153), (154, 154), (155, 155), (156, 156),
      (157, 157), (158, 158), (159, 159), (160, 160), (1025, 161), (1026, 162), (1027, 163), (1028,
      164), (1029, 165), (1030, 166), (1031, 167), (1032, 168), (1033, 169), (1034, 170), (1035,
      171), (1036, 172), (173, 173), (1038, 174), (1039, 175), (1040, 176), (1041, 177), (1042,
      178), (1043, 179), (1044, 180), (1045, 181), (1046, 182), (1047, 183), (1048, 184), (1049,
      185), (1050, 186), (1051, 187), (1052, 188), (1053, 189), (1054, 190), (1055, 191), (1056,
      192), (1057, 193), (1058, 194), (1059, 195), (1060, 196), (1061, 197), (1062, 198), (1063,
      199), (1064, 200), (1065, 201), (1066, 202), (1067, 203), (1068, 204), (1069, 205), (1070,
      206), (1071, 207), (1072, 208), (1073, 209), (1074, 210), (1075, 211), (1076, 212), (1077,
      213), (1078, 214), (1079, 215), (1080, 216), (1081, 217), (1082, 218), (1083, 219), (1084,
      220), (1085, 221), (1086, 222), (1087, 223), (1088, 224), (1089, 225), (1090, 226), (1091,
      227), (1092, 228), (1093, 229), (1094, 230), (1095, 231), (1096, 232), (1097, 233), (1098,
      234), (1099, 235), (1100, 236), (1101, 237), (1102, 238), (1103, 239), (8470, 240), (1105,
      241), (1106, 242), (1107, 243), (1108, 244), (1109, 245), (1110, 246), (1111, 247), (1112,
      248), (1113, 249), (1114, 250), (1115, 251), (1116, 252), (167, 253), (1118, 254), (1119,
      255)]),
  ("koi8_r", [(9472, 128), (9474, 129), (9484, 130), (9488, 131), (9492, 132), (9496, 133), (9500,
      134), (9508, 135), (9516, 136), (9524, 137), (9532, 138), (9600, 139), (9604, 140), (9608,
      141), (9612, 142), (9616, 143), (9617, 144), (9618, 145), (9619, 146), (8992, 147), (9632,
      148), (8729, 149), (8730, 150), (8776, 151), (8804, 152), (8805, 153), (160, 154), (8993,
      155), (176, 156), (178, 157), (183, 158), (247, 159), (9552, 160), (9553, 161), (9554, 162),
      (1105, 163), (9555, 164), (9556, 165), (9557, 166), (9558, 167), (9559, 168), (9560, 169),
      (9561, 170), (9562, 171), (9563, 172), (9564, 173), (9565, 174), (9566, 175), (9567, 176),
      (9568, 177), (9569, 178), (1025, 179), (9570, 180), (9571, 181), (9572, 182), (9573, 183),
      (9574, 184), (9575, 185), (9576, 186), (9577, 187), (9578, 188), (9579, 189), (9580, 190),
      (169, 191), (1102, 192), (1072, 193), (1073, 194), (1094, 195), (1076, 196), (1077, 197),
      (1092, 198), (1075, 199), (1093, 200), (1080, 201), (1081, 202), (1082, 203), (1083, 204),
      (1084, 205), (1085, 206), (1086, 207), (1087, 208), (1103, 209), (1088, 210), (1089, 211),
      (1090, 212), (1091, 213), (1078, 214), (1074, 215), (1100, 216), (1099, 217), (1079, 218),
      (1096, 219), (1101, 220), (1097, 221), (1095, 222), (1098, 223), (1070, 224), (1040, 225),
      (1041, 226), (1062, 227), (1044, 228), (1045, 229), (1060, 230), (1043, 231), (1061, 232),
      (1048, 233), (1049, 234), (1050, 235), (1051, 236), (1052, 237), (1053, 238), (1054, 239),
      (1055, 240), (1071, 241), (1056, 242), (1057, 243), (1058, 244), (1059, 245), (1046, 246),
      (1042, 247), (1068, 248), (1067, 249), (1047, 250), (1064, 251), (1069, 252), (1065, 253),
      (1063, 254), (1066, 255)]),
  ("koi8_u", [(9472, 128), (9474, 129), (9484, 130), (9488, 131), (9492, 132), (9496, 133), (9500,
      134), (9508, 135), (9516, 136), (9524, 137), (9532, 138), (9600, 139), (9604, 140), (9608,
      141), (9612, 142), (9616, 143), (9617, 144), (9618, 145), (9619, 146), (8992, 147), (9632,
      148), (8729, 149), (8730, 150), (8776, 151), (8804, 152), (8805, 153), (160, 154), (8993,
      155), (176, 156), (178, 157), (183, 158), (247, 159), (9552, 160), (9553, 161), (9554, 162),
      (1105, 163), (1108, 164), (9556, 165), (1110, 166), (1111, 167), (9559, 168), (9560, 169),
      (9561, 170), (9562, 171), (9563, 172), (1169, 173), (9565, 174), (9566, 175), (9567, 176),
      (9568, 177), (9569, 178), (1025, 179), (1028, 180), (9571, 181), (1030, 182), (1031, 183),
      (9574, 184), (9575, 185), (9576, 186), (9577, 187), (9578, 188), (1168, 189), (9580, 190),
      (169, 191), (1102, 192), (1072, 193), (1073, 194), (1094, 195), (1076, 196), (1077, 197),
      (1092, 198), (1075, 199), (1093, 200), (1080, 201), (1081, 202), (1082, 203), (1083, 204),
      (1084, 205), (1085, 206), (1086, 207), (1087, 208), (1103, 209), (1088, 210), (1089, 211),
      (1090, 212), (1091, 213), (1078, 214), (1074, 215), (1100, 216), (1099, 217), (1079, 218),
      (1096, 219), (1101, 220), (1097, 221), (1095, 222), (1098, 223), (1070, 224), (1040, 225),
      (1041, 226), (1062, 227), (1044, 228), (1045, 229), (1060, 230), (1043, 231), (1061, 232),
      (1048, 233), (1049, 234), (1050, 235), (1051, 236), (1052, 237), (1053, 238), (1054, 239),
      (1055, 240), (1071, 241), (1056, 242), (1057, 243), (1058, 244), (1059, 245), (1046, 246),
      (1042, 247), (1068, 248), (1067, 249), (1047, 250), (1064, 251), (1069, 252), (1065, 253),
      (1063, 254), (1066, 255)]),
  ("iso-8859-13", [(128, 128), (129, 129), (130, 130), (131, 131), (132, 132), (133, 133), (134,
      134), (135, 135), (136, 136), (137, 137), (138, 138), (139, 139), (140, 140), (141, 141),
      (142, 142), (143, 143), (144, 144), (145, 145), (146, 146), (147, 147), (148, 148), (149,
      149), (150, 150), (151, 151), (152, 152), (153, 153), (154, 154), (155, 155), (156, 156),
      (157, 157), (158, 158), (159, 159), (160, 160), (8221, 161), (162, 162), (163, 163), (164,
      164), (8222, 165), (166, 166), (167, 167), (216, 168), (169, 169), (342, 170), (171, 171),
      (172, 172), (173, 173), (174, 174), (198, 175), (176, 176), (177, 177), (178, 178), (179,
      179), (8220, 180), (181, 181), (182, 182), (183, 183), (248, 184), (185, 185), (343, 186),
      (187, 187), (188, 188), (189, 189), (190, 190), (230, 191), (260, 192), (302, 193), (256,
      194), (262, 195), (196, 196), (197, 197), (280, 198), (274, 199), (268, 200), (201, 201),
      (377, 202), (278, 203), (290, 204), (310, 205), (298, 206), (315, 207), (352, 208), (323,
      209), (325, 210), (211, 211), (332, 212), (213, 213), (214, 214), (215, 215), (370, 216),
      (321, 217), (346, 218), (362, 219), (220, 220), (379, 221), (381, 222), (223, 223), (261,
      224), (303, 225), (257, 226), (263, 227), (228, 228), (229, 229), (281, 230), (275, 231),
      (269, 232), (233, 233), (378, 234), (279, 235), (291, 236), (311, 237), (299, 238), (316,
      239), (353, 240), (324, 241), (326, 242), (243, 243), (333, 244), (245, 245), (246, 246),
      (247, 247), (371, 248), (322, 249), (347, 250), (363, 251), (252, 252), (380, 253), (382,
      254), (8217, 255)]),
  ("windows-1253", [(8364, 128), (8218, 130), (402, 131), (8222, 132), (8230, 133), (8224, 134),
      (8225, 135), (8240, 137), (8249, 139), (8216, 145), (8217, 146), (8220, 147), (8221, 148),
      (8226, 149), (8211, 150), (8212, 151), (8482, 153), (8250, 155), (160, 160), (901, 161),
      (902, 162), (163, 163), (164, 164), (165, 165), (166, 166), (167, 167), (168, 168), (169,
      169), (171, 171), (172, 172), (173, 173), (174, 174), (8213, 175), (176, 176), (177, 177),
      (178, 178), (179, 179), (900, 180), (181, 181), (182, 182), (183, 183), (904, 184), (905,
      185), (906, 186), (187, 187), (908, 188), (189, 189), (910, 190), (911, 191), (912, 192),
      (913, 193), (914, 194), (915, 195), (916, 196), (917, 197), (918, 198), (919, 199), (920,
      200), (921, 201), (922, 202), (923, 203), (924, 204), (925, 205), (926, 206), (927, 207),
      (928, 208), (929, 209), (931, 211), (932, 212), (933, 213), (934, 214), (935, 215), (936,
      216), (937, 217), (938, 218), (939, 219), (940, 220), (941, 221), (942, 222), (943, 223),
      (944, 224), (945, 225), (946, 226), (947, 227), (948, 228), (949, 229), (950, 230), (951,
      231), (952, 232), (953, 233), (954, 234), (955, 235), (956, 236), (957, 237), (958, 238),
      (959, 239), (960, 240), (961, 241), (962, 242), (963, 243), (964, 244), (965, 245), (966,
      246), (967, 247), (968, 248), (969, 249), (970, 250), (971, 251), (972, 252), (973, 253),
      (974, 254)]),
  ("iso-8859-7", [(128, 128), (129, 129), (130, 130), (131, 131), (132, 132), (133, 133), (134,
      134), (135, 135), (136, 136), (137, 137), (138, 138), (139, 139), (140, 140), (141, 141),
      (142, 142), (143, 143), (144, 144), (145, 145), (146, 146), (147, 147), (148, 148), (149,
      149), (150, 150), (151, 151), (152, 152), (153, 153), (154, 154), (155, 155), (156, 156),
      (157, 157), (158, 158), (159, 159), (160, 160), (8216, 161), (8217, 162), (163, 163), (8364,
      164), (8367, 165), (166, 166), (167, 167), (168, 168), (169, 169), (890, 170), (171, 171),
      (172, 172), (173, 173), (8213, 175), (176, 176), (177, 177), (178, 178), (179, 179), (900,
      180), (901, 181), (902, 182), (183, 183), (904, 184), (905, 185), (906, 186), (187, 187),
      (908, 188), (189, 189), (910, 190), (911, 191), (912, 192), (913, 193), (914, 194), (915,
      195), (916, 196), (917, 197), (918, 198), (919, 199), (920, 200), (921, 201), (922, 202),
      (923, 203), (924, 204), (925, 205), (926, 206), (927, 207), (928, 208), (929, 209), (931,
      211), (932, 212), (933, 213), (934, 214), (935, 215), (936, 216), (937, 217), (938, 218),
      (939, 219), (940, 220), (941, 221), (942, 222), (943, 223), (944, 224), (945, 225), (946,
      226), (947, 227), (948, 228), (949, 229), (950, 230), (951, 231), (952, 232), (953, 233),
      (954, 234), (955, 235), (956, 236), (957, 237), (958, 238), (959, 239), (960, 240), (961,
      241), (962, 242), (963, 243), (964, 244), (965, 245), (966, 246), (967, 247), (968, 248),
      (969, 249), (970, 250), (971, 251), (972, 252), (973, 253), (974, 254)]),
  ("windows-1255", [(8364, 128), (8218, 130), (402, 131), (8222, 132), (8230, 133), (8224, 134),
      (8225, 135), (710, 136), (8240, 137), (8249, 139), (8216, 145), (8217, 146), (8220, 147),
      (8221, 148), (8226, 149), (8211, 150), (8212, 151), (732, 152), (8482, 153), (8250, 155),
      (160, 160), (161, 161), (162, 162), (163, 163), (8362, 164), (165, 165), (166, 166), (167,
      167), (168, 168), (169, 169), (215, 170), (171, 171), (172, 172), (173, 173), (174, 174),
      (175, 175), (176, 176), (177, 177), (178, 178), (179, 179), (180, 180), (181, 181), (182,
      182), (183, 183), (184, 184), (185, 185), (247, 186), (187, 187), (188, 188), (189, 189),
      (190, 190), (191, 191), (1456, 192), (1457, 193), (1458, 194), (1459, 195), (1460, 196),
      (1461, 197), (1462, 198), (1463, 199), (1464, 200), (1465, 201), (1467, 203), (1468, 204),
      (1469, 205), (1470, 206), (1471, 207), (1472, 208), (1473, 209), (1474, 210), (1475, 211),
      (1520, 212), (1521, 213), (1522, 214), (1523, 215), (1524, 216), (1488, 224), (1489, 225),
      (1490, 226), (1491, 227), (1492, 228), (1493, 229), (1494, 230), (1495, 231), (1496, 232),
      (1497, 233), (1498, 234), (1499, 235), (1500, 236), (1501, 237), (1502, 238), (1503, 239),
      (1504, 240), (1505, 241), (1506, 242), (1507, 243), (1508, 244), (1509, 245), (1510, 246),
      (1511, 247), (1512, 248), (1513, 249), (1514, 250), (8206, 253), (8207, 254)]),
  ("iso-8859-8", [(128, 128), (129, 129), (130, 130), (131, 131), (132, 132), (133, 133), (134,
      134), (135, 135), (136, 136), (137, 137), (138, 138), (139, 139), (140, 140), (141, 141),
      (142, 142), (143, 143), (144, 144), (145, 145), (146, 146), (147, 147), (148, 148), (149,
      149), (150, 150), (151, 151), (152, 152), (153, 153), (154, 154), (155, 155), (156, 156),
      (157, 157), (158, 158), (159, 159), (160, 160), (162, 162), (163, 163), (164, 164), (165,
      165), (166, 166), (167, 167), (168, 168), (169, 169), (215, 170), (171, 171), (172, 172),
      (173, 173), (174, 174), (175, 175), (176, 176), (177, 177), (178, 178), (179, 179), (180,
      180), (181, 181), (182, 182), (183, 183), (184, 184), (185, 185), (247, 186), (187, 187),
      (188, 188), (189, 189), (190, 190), (8215, 223), (1488, 224), (1489, 225), (1490, 226),
      (1491, 227), (1492, 228), (1493, 229), (1494, 230), (1495, 231), (1496, 232), (1497, 233),
      (1498, 234), (1499, 235), (1500, 236), (1501, 237), (1502, 238), (1503, 239), (1504, 240),
      (1505, 241), (1506, 242), (1507, 243), (1508, 244), (1509, 245), (1510, 246), (1511, 247),
      (1512, 248), (1513, 249), (1514, 250), (8206, 253), (8207, 254)]),
  ("iso-8859-10", [(128, 128), (129, 129), (130, 130), (131, 131), (132, 132), (133, 133), (134,
      134), (135, 135), (136, 136), (137, 137), (138, 138), (139, 139), (140, 140), (141, 141),
      (142, 142), (143, 143), (144, 144), (145, 145), (146, 146), (147, 147), (148, 148), (149,
      149), (150, 150), (151, 151), (152, 152), (153, 153), (154, 154), (155, 155), (156, 156),
      (157, 157), (158, 158), (159, 159), (160, 160), (260, 161), (274, 162), (290, 163), (298,
      164), (296, 165), (310, 166), (167, 167), (315, 168), (272, 169), (352, 170), (358, 171),
      (381, 172), (173, 173), (362, 174), (330, 175), (176, 176), (261, 177), (275, 178), (291,
      179), (299, 180), (297, 181), (311, 182), (183, 183), (316, 184), (273, 185), (353, 186),
      (359, 187), (382, 188), (8213, 189), (363, 190), (331, 191), (256, 192), (193, 193), (194,
      194), (195, 195), (196, 196), (197, 197), (198, 198), (302, 199), (268, 200), (201, 201),
      (280, 202), (203, 203), (278, 204), (205, 205), (206, 206), (207, 207), (208, 208), (325,
      209), (332, 210), (211, 211), (212, 212), (213, 213), (214, 214), (360, 215), (216, 216),
      (370, 217), (218, 218), (219, 219), (220, 220), (221, 221), (222, 222), (223, 223), (257,
      224), (225, 225), (226, 226), (227, 227), (228, 228), (229, 229), (230, 230), (303, 231),
      (269, 232), (233, 233), (281, 234), (235, 235), (279, 236), (237, 237), (238, 238), (239,
      239), (240, 240), (326, 241), (333, 242), (243, 243), (244, 244), (245, 245), (246, 246),
      (361, 247), (248, 248), (371, 249), (250, 250), (251, 251), (252, 252), (253, 253), (254,
      254), (312, 255)]),
  ("iso-8859-16", [(128, 128), (129, 129), (130, 130), (131, 131), (132, 132), (133, 133), (134,
      134), (135, 135), (136, 136), (137, 137), (138, 138), (139, 139), (140, 140), (141, 141),
      (142, 142), (143, 143), (144, 144), (145, 145), (146, 146), (147, 147), (148, 148), (149,
      149), (150, 150), (151, 151), (152, 152), (153, 153), (154, 154), (155, 155), (156, 156),
      (157, 157), (158, 158), (159, 159), (160, 160), (260, 161), (261, 162), (321, 163), (8364,
      164), (8222, 165), (352, 166), (167, 167), (353, 168), (169, 169), (536, 170), (171, 171),
      (377, 172), (173, 173), (378, 174), (379, 175), (176, 176), (177, 177), (268, 178), (322,
      179), (381, 180), (8221, 181), (182, 182), (183, 183), (382, 184), (269, 185), (537, 186),
      (187, 187), (338, 188), (339, 189), (376, 190), (380, 191), (192, 192), (193, 193), (194,
      194), (258, 195), (196, 196), (262, 197), (198, 198), (199, 199), (200, 200), (201, 201),
      (202, 202), (203, 203), (204, 204), (205, 205), (206, 206), (207, 207), (272, 208), (323,
      209), (210, 210), (211, 211), (212, 212), (336, 213), (214, 214), (346, 215), (368, 216),
      (217, 217), (218, 218), (219, 219), (220, 220), (280, 221), (538, 222), (223, 223), (224,
      224), (225, 225), (226, 226), (259, 227), (228, 228), (263, 229), (230, 230), (231, 231),
      (232, 232), (233, 233), (234, 234), (235, 235), (236, 236), (237, 237), (238, 238), (239,
      239), (273, 240), (324, 241), (242, 242), (243, 243), (244, 244), (337, 245), (246, 246),
      (347, 247), (369, 248), (249, 249), (250, 250), (251, 251), (252, 252), (281, 253), (539,
      254), (255, 255)]),
  ("windows-1254", [(8364, 128), (8218, 130), (402, 131), (8222, 132), (8230, 133), (8224, 134),
      (8225, 135), (710, 136), (8240, 137), (352, 138), (8249, 139), (338, 140), (8216, 145),
      (8217, 146), (8220, 147), (8221, 148), (8226, 149), (8211, 150), (8212, 151), (732, 152),
      (8482, 153), (353, 154), (8250, 155), (339, 156), (376, 159), (160, 160), (161, 161), (162,
      162), (163, 163), (164, 164), (165, 165), (166, 166), (167, 167), (168, 168), (169, 169),
      (170, 170), (171, 171), (172, 172), (173, 173), (174, 174), (175, 175), (176, 176), (177,
      177), (178, 178), (179, 179), (180, 180), (181, 181), (182, 182), (183, 183), (184, 184),
      (185, 185), (186, 186), (187, 187), (188, 188), (189, 189), (190, 190), (191, 191), (192,
      192), (193, 193), (194, 194), (195, 195), (196, 196), (197, 197), (198, 198), (199, 199),
      (200, 200), (201, 201), (202, 202), (203, 203), (204, 204), (205, 205), (206, 206), (207,
      207), (286, 208), (209, 209), (210, 210), (211, 211), (212, 212), (213, 213), (214, 214),
      (215, 215), (216, 216), (217, 217), (218, 218), (219, 219), (220, 220), (304, 221), (350,
      222), (223, 223), (224, 224), (225, 225), (226, 226), (227, 227), (228, 228), (229, 229),
      (230, 230), (231, 231), (232, 232), (233, 233), (234, 234), (235, 235), (236, 236), (237,
      237), (238, 238), (239, 239), (287, 240), (241, 241), (242, 242), (243, 243), (244, 244),
      (245, 245), (246, 246), (247, 247), (248, 248), (249, 249), (250, 250), (251, 251), (252,
      252), (305, 253), (351, 254), (255, 255)]),
  ("iso-8859-9", [(128, 128), (129, 129), (130, 130), (131, 131), (132, 132), (133, 133), (134,
      134), (135, 135), (136, 136), (137, 137), (138, 138), (139, 139), (140, 140), (141, 141),
      (142, 142), (143, 143), (144, 144), (145, 145), (146, 146), (147, 147), (148, 148), (149,
      149), (150, 150), (151, 151), (152, 152), (153, 153), (154, 154), (155, 155), (156, 156),
      (157, 157), (158, 158), (159, 159), (160, 160), (161, 161), (162, 162), (163, 163), (164,
      164), (165, 165), (166, 166), (167, 167), (168, 168), (169, 169), (170, 170), (171, 171),
      (172, 172), (173, 173), (174, 174), (175, 175), (176, 176), (177, 177), (178, 178), (179,
      179), (180, 180), (181, 181), (182, 182), (183, 183), (184, 184), (185, 185), (186, 186),
      (187, 187), (188, 188), (189, 189), (190, 190), (191, 191), (192, 192), (193, 193), (194,
      194), (195, 195), (196, 196), (197, 197), (198, 198), (199, 199), (200, 200), (201, 201),
      (202, 202), (203, 203), (204, 204), (205, 205), (206, 206), (207, 207), (286, 208), (209,
      209), (210, 210), (211, 211), (212, 212), (213, 213), (214, 214), (215, 215), (216, 216),
      (217, 217), (218, 218), (219, 219), (220, 220), (304, 221), (350, 222), (223, 223), (224,
      224), (225, 225), (226, 226), (227, 227), (228, 228), (229, 229), (230, 230), (231, 231),
      (232, 232), (233, 233), (234, 234), (235, 235), (236, 236), (237, 237), (238, 238), (239,
      239), (287, 240), (241, 241), (242, 242), (243, 243), (244, 244), (245, 245), (246, 246),
      (247, 247), (248, 248), (249, 249), (250, 250), (251, 251), (252, 252), (305, 253), (351,
      254), (255, 255)]),
  ("windows-1258", [(8364, 128), (8218, 130), (402, 131), (8222, 132), (8230, 133), (8224, 134),
      (8225, 135), (710, 136), (8240, 137), (8249, 139), (338, 140), (8216, 145), (8217, 146),
      (8220, 147), (8221, 148), (8226, 149), (8211, 150), (8212, 151), (732, 152), (8482, 153),
      (8250, 155), (339, 156), (376, 159), (160, 160), (161, 161), (162, 162), (163, 163), (164,
      164), (165, 165), (166, 166), (167, 167), (168, 168), (169, 169), (170, 170), (171, 171),
      (172, 172), (173, 173), (174, 174), (175, 175), (176, 176), (177, 177), (178, 178), (179,
      179), (180, 180), (181, 181), (182, 182), (183, 183), (184, 184), (185, 185), (186, 186),
      (187, 187), (188, 188), (189, 189), (190, 190), (191, 191), (192, 192), (193, 193), (194,
      194), (258, 195), (196, 196), (197, 197), (198, 198), (199, 199), (200, 200), (201, 201),
      (202, 202), (203, 203), (768, 204), (205, 205), (206, 206), (207, 207), (272, 208), (209,
      209), (777, 210), (211, 211), (212, 212), (416, 213), (214, 214), (215, 215), (216, 216),
      (217, 217), (218, 218), (219, 219), (220, 220), (431, 221), (771, 222), (223, 223), (224,
      224), (225, 225), (226, 226), (259, 227), (228, 228), (229, 229), (230, 230), (231, 231),
      (232, 232), (233, 233), (234, 234), (235, 235), (769, 236), (237, 237), (238, 238), (239,
      239), (273, 240), (241, 241), (803, 242), (243, 243), (244, 244), (417, 245), (246, 246),
      (247, 247), (248, 248), (249, 249), (250, 250), (251, 251), (252, 252), (432, 253), (8363,
      254), (255, 255)])]

/-- The codec names that CPython's registry resolves, among the strings
reachable through `ENCODING_MAP`.  Notably absent: `"cp-437"` and
`"windows-866"`, which CPython does not recognise (the valid names are
`cp437` / `cp866`), so `str.encode` raises `LookupError` for them. -/
def validCodec (codec : String) : Bool :=
  (["utf-8", "utf-16le", "utf-16be"] : List String).contains codec ||
    (charmapTables.map Prod.fst).contains codec

/-- Per-character model of the CPython codecs reachable through
`ENCODING_MAP` (defined for valid codec names; `validCodec` guards its use).
`utf-8`, `utf-16le` and `utf-16be` are computed; every single-byte codec is
the identity on the shared ASCII range and its `charmapTables` entry above
it, with `none` modelling `UnicodeEncodeError` for characters the codec
cannot represent. -/
def pyEncodeChar (codec : String) (c : Char) : Option (List Nat) :=
  if codec = "utf-8" then some (utf8Bytes c)
  else if codec = "utf-16le" then some ((utf16Units c).flatMap fun u => [u % 256, u / 256])
  else if codec = "utf-16be" then some ((utf16Units c).flatMap fun u => [u / 256, u % 256])
  else if c.toNat < 128 then some [c.toNat]
  else
    match ((charmapTables.lookup codec).getD []).lookup c.toNat with
    | some b => some [b]
    | none => none

/-- `text.encode(codec)`: encode a string character by character, concatenating
the per-character byte sequences; `none` models `UnicodeError` (raised as soon
as any character is unrepresentable). -/
def pyEncode (codec : String) : List Char → Option (List Nat)
  | [] => some []
  | c :: s =>
    match pyEncodeChar codec c, pyEncode codec s with
    | some b, some bs => some (b ++ bs)
    | _, _ => none

/-- `text.replace("\n", line_endings)`: substitute every newline character. -/
def pyReplaceNewlines (s : List Char) (line_endings : List Char) : List Char :=
  s.flatMap fun c => if c = '\n' then line_endings else [c]

/-- The parts of a Sublime `view` that the plugin reads.  `change_counts k` is
the value returned by the `k`-th call of `view.change_count()` during one
estimator run (call `0` captures the fencepost `tag`; call `k + 1` is the check
before chunk `k`): a buffer that is never mutated has a constant
`change_counts`, and a mid-scan mutation shows up as a later call returning a
different value.  Content, size, encoding and line-ending names are modelled as
stable during a scan; mutation is observed only through the counter, which is
all the aborting logic of the source consults. -/
structure View where
  content : List Char
  change_counts : Nat → Nat
  encoding : String
  line_endings : String
  file_name : Option String
  is_dirty : Bool

/-- `view.size()`: the buffer length in characters. -/
def View.size (v : View) : Nat := v.content.length

/-- `view.substr(sublime.Region(start, stop))`: the characters in `[start, stop)`. -/
def View.substr (v : View) (start stop : Nat) : List Char :=
  (v.content.drop start).take (stop - start)

/-- The chunk loop of `estimate_file_size`.  Arguments: the fencepost `tag`,
the view, the resolved codec and line-ending, the `deflate` flag; then the
remaining chunks (as `(index, (start, stop))` pairs from `List.enum`), the
running `size` and the accumulated `data` bytes.  Results: `.error .ViewHasChanged`
models the `raise ViewHasChanged()`, `.error .LookupError` models the
uncaught exception from `text.encode` on a codec name CPython cannot resolve,
`.ok none` models the `return None, None` on a `UnicodeError`, and
`.ok (some (size, data))` is normal completion. -/
def scanChunks (tag : Nat) (v : View) (encoding : String) (line_endings : List Char)
    (deflate : Bool) :
    List (Nat × (Nat × Nat)) → ℚ → List Nat → Except PyExn (Option (ℚ × List Nat))
  | [], size, data => .ok (some (size, data))
  | (k, (start, stop)) :: rest, size, data =>
    if v.change_counts (k + 1) ≠ tag then .error PyExn.ViewHasChanged
    else
      let text := v.substr start stop
      if encoding = SPECIAL_HEXADECIMAL then
        scanChunks tag v encoding line_endings deflate rest
          (size + (count_hex_digits text : ℚ) / 2) data
      else
        -- `text.replace(...).encode(encoding)`: an unresolvable codec name
        -- raises LookupError, which `except UnicodeError` does not catch
        if validCodec encoding then
          match pyEncode encoding (pyReplaceNewlines text line_endings) with
          | some encoded_text =>
            scanChunks tag v encoding line_endings deflate rest
              (size + (encoded_text.length : ℚ))
              (if deflate then data ++ encoded_text else data)
          | none => .ok none
        else .error PyExn.LookupError

/-- `estimate_file_size(view, deflate)`.  `compress` models `zlib.compress`
(an external library function, passed in explicitly).  The running `size` is a
rational, mirroring the exact value of the Python int-then-float accumulator;
`int(size)` is modelled by `⌊·⌋.toNat`, which agrees with Python's
truncation-toward-zero because the accumulator is never negative. -/
def estimate_file_size (compress : List Nat → List Nat) (view : View) (deflate : Bool) :
    Except PyExn (Option Nat × Option Nat) :=
  let tag := view.change_counts 0
  match LINE_ENDINGS_MAP.lookup view.line_endings, ENCODING_MAP.lookup view.encoding with
  | some line_endings, some encoding =>
    match scanChunks tag view encoding line_endings.toList deflate
        (ranges 0 view.size BLOCK_SIZE).enum 0 [] with
    | .error e => .error e
    | .ok none => .ok (none, none)
    | .ok (some (size, data)) =>
      let deflate_size := if deflate then some (compress data).length else none
      .ok (some ⌊size⌋.toNat, deflate_size)
  | _, _ => .ok (none, none)

/-! ### The status-update flow (`update_file_size`) -/

/-- The plugin settings the update flow reads, with their source defaults
(`settings.get(key, default)` is modelled as plain field access). -/
structure Settings where
  deflate : Bool := false
  estimate_file_size : Bool := true
  units : String := "binary"
  typing_delay : Nat := 200

/-- `update_file_size(view)`.  External collaborators are explicit parameters:
`compress` models `zlib.compress`, `getsize` models `os.path.getsize` (`none`
models an `OSError`), `read_bytes` models opening and reading the file (`none`
models an `OSError` there, which the source also catches — note the source has
already assigned `size` at that point, so only the compressed part is lost).
The status surface is modelled by its value for the `KEY_SIZE` entry: a
`.ok` result maps the previous status value to the new one, `.ok none`
meaning the entry is erased.  The source catches exactly `ViewHasChanged`
(returning without touching the status, so the previous value is passed
through); any other exception from the estimator — the `LookupError` of an
unresolvable codec — propagates out of `update_file_size`, modelled as
`.error`. -/
def update_file_size (compress : List Nat → List Nat) (getsize : String → Option Nat)
    (read_bytes : String → Option (List Nat)) (settings : Settings) (view : View)
    (status : Option String) : Except PyExn (Option String) :=
  let deflate := settings.deflate
  let display := fun (size deflate_size : Option Nat) (estimate : Bool) =>
    let units := settings.units
    match size with
    | some s =>
      let status_texts := [(file_size_str (some s) units).getD ""]
      let status_texts :=
        if deflate && (match deflate_size with | some n => n ≠ 0 | none => false) then
          status_texts ++ ["(gzip: " ++ (file_size_str deflate_size units).getD "" ++ ")"]
        else status_texts
      some ((if estimate then "~" else "") ++ String.intercalate " " status_texts)
    | none => none
  let estimateBranch :=
    if settings.estimate_file_size then
      match estimate_file_size compress view deflate with
      | .error PyExn.ViewHasChanged => .ok status
      | .error e => .error e
      | .ok (size, deflate_size) => .ok (display size deflate_size true)
    else .ok (display none none false)
  match view.file_name with
  | none => estimateBranch
  | some path =>
    if path = "" || view.is_dirty then estimateBranch
    else
      match getsize path with
      | none => .ok (display none none false)
      | some sz =>
        let deflate_size :=
          if deflate then
            match read_bytes path with
            | some bs => some (compress bs).length
            | none => none
          else none
        .ok (display (some sz) deflate_size false)

/-! ### The debounce machinery

`call_cache` is a `defaultdict(int)` keyed by view; `update_file_size_debounced`
increments the view's counter and schedules `_check_call` after the typing
delay; `_check_call` decrements, and only when the counter reaches zero deletes
the entry and runs `update_file_size`.  The model below keys views by a
numeric id, tracks the buffer revision (incremented by each modification
event), and records each executed `update_file_size` cycle as a
`(view id, revision at execution)` pair.  A sequence of events inside one
debounce window corresponds to a trace in which all the increments precede all
the scheduled checks. -/

structure DebounceState where
  call_cache : List (Nat × Int)
  rev : Nat
  runs : List (Nat × Nat)
deriving DecidableEq

/-- The initial debounce state: empty cache, nothing executed. -/
def debounceInit : DebounceState := ⟨[], 0, []⟩

/-- `call_cache[view]` with the `defaultdict(int)` default of `0`. -/
def cacheGet (c : List (Nat × Int)) (v : Nat) : Int :=
  (c.lookup v).getD 0

/-- `call_cache[view] = n`. -/
def cacheSet (c : List (Nat × Int)) (v : Nat) (n : Int) : List (Nat × Int) :=
  (v, n) :: c.eraseP (fun e => e.1 == v)

/-- `del call_cache[view]`. -/
def cacheDel (c : List (Nat × Int)) (v : Nat) : List (Nat × Int) :=
  c.eraseP (fun e => e.1 == v)

/-- A modification event on view `v`: the buffer revision advances, and
`update_file_size_debounced` increments the pending-call counter (it also
schedules one delayed `check_call`, which the trace under test makes explicit). -/
def on_modified (s : DebounceState) (v : Nat) : DebounceState :=
  { s with rev := s.rev + 1,
           call_cache := cacheSet s.call_cache v (cacheGet s.call_cache v + 1) }

/-- `_check_call(view)`: decrement the counter; if it reaches zero, delete the
entry and run the estimate-and-display cycle (recorded in `runs` together with
the buffer revision it observes). -/
def check_call (s : DebounceState) (v : Nat) : DebounceState :=
  let c := cacheSet s.call_cache v (cacheGet s.call_cache v - 1)
  if cacheGet c v = 0 then
    { s with call_cache := cacheDel c v, runs := s.runs ++ [(v, s.rev)] }
  else { s with call_cache := c }

/-! ## Theorems -/

/-! ### Helper lemmas about the formatter -/

/-- The loop's iterates shift: after one division, the remaining iterates are
those of the chain started at the first quotient. -/
theorem float_scaled_succ (d q : ℚ) :
    ∀ j, float_scaled d q (j + 1) = float_scaled d (fl (q / d)) j := by
  intro j
  induction j with
  | zero => rfl
  | succ j ih =>
    show fl (float_scaled d q (j + 1) / d) = fl (float_scaled d (fl (q / d)) j / d)
    rw [ih]

/-- Characterization of the division loop: if `k` is the first index whose
IEEE-divided scaled value drops below the divisor, the loop returns that
scaled value and the `k`-th unit letter. -/
theorem file_size_loop_eq (d : ℚ) :
    ∀ (us : List Char) (k : Nat) (q : ℚ), k + 1 ≤ us.length →
      (∀ j, j < k → ¬ float_scaled d q j < d) → float_scaled d q k < d →
      file_size_loop d q us = (float_scaled d q k, us.getD k 'Y') := by
  intro us
  induction us with
  | nil => intro k q hk; simp at hk
  | cons u us ih =>
    intro k q hk hlow hbreak
    cases us with
    | nil =>
      have hk0 : k = 0 := by simpa using hk
      subst hk0
      simp [file_size_loop, float_scaled]
    | cons u2 rest =>
      cases k with
      | zero =>
        have h0 : fl (q / d) < d := by simpa [float_scaled] using hbreak
        simp [file_size_loop, h0, float_scaled]
      | succ k =>
        have h0 : ¬ fl (q / d) < d := by
          have := hlow 0 (Nat.succ_pos k)
          simpa [float_scaled] using this
        have ih' := ih k (fl (q / d)) (by simpa using hk)
          (fun j hj => by
            rw [← float_scaled_succ]
            exact hlow (j + 1) (Nat.succ_lt_succ hj))
          (by rw [← float_scaled_succ]; exact hbreak)
        simp only [file_size_loop]
        rw [if_neg h0, ih', ← float_scaled_succ]
        simp

/-- `pyFmt2 1 = "1.0"` (CPython: `"{:.2}".format(1.0) == "1.0"`). -/
theorem pyFmt2_one : pyFmt2 1 = "1.0" := by
  have h10 : ((1 : ℚ) * 10 / 10 ^ decExp ⌊(1:ℚ)⌋.toNat) = 10 := by
    norm_num [decExp, decExpAux]
  have hr : roundHalfEven 10 = 10 := by
    have hf : ⌊(10:ℚ)⌋ = 10 := by norm_num
    simp only [roundHalfEven, hf]
    norm_num
  simp only [pyFmt2, h10, hr]
  norm_num [decExp, decExpAux]
  decide

/-- `pyFmt2 10 = "1e+01"` (CPython: `"{:.2}".format(10.0) == "1e+01"`). -/
theorem pyFmt2_ten : pyFmt2 10 = "1e+01" := by
  have hf : ⌊(10:ℚ)⌋ = 10 := by norm_num
  have hexp : decExp ⌊(10:ℚ)⌋.toNat = 1 := by
    rw [hf]; decide
  have h10 : ((10 : ℚ) * 10 / 10 ^ (1:Nat)) = 10 := by norm_num
  have hr : roundHalfEven 10 = 10 := by
    simp only [roundHalfEven, hf]
    norm_num
  simp only [pyFmt2, hexp, h10, hr]
  norm_num
  decide

/-- `roundHalfEven` is the identity on integers. -/
theorem roundHalfEven_intCast (n : ℤ) : roundHalfEven (n : ℚ) = n := by
  simp only [roundHalfEven, Int.floor_intCast]
  norm_num

/-- `1.0` is an IEEE double. -/
theorem fl_one : fl (1 : ℚ) = 1 := by
  have hf : ⌊(1:ℚ)⌋ = 1 := Int.floor_one
  have he : natBits ⌊(1:ℚ)⌋.toNat = 0 := by rw [hf]; decide
  simp only [fl, he]
  rw [if_pos (by norm_num),
    show ((1:ℚ) * 2 ^ (52 - 0)) = ((4503599627370496 : ℤ) : ℚ) by norm_num,
    roundHalfEven_intCast]
  norm_num

/-- `10.0` is an IEEE double. -/
theorem fl_ten : fl (10 : ℚ) = 10 := by
  have hf : ⌊(10:ℚ)⌋ = 10 := by norm_num
  have he : natBits ⌊(10:ℚ)⌋.toNat = 3 := by rw [hf]; decide
  simp only [fl, he]
  rw [if_pos (by norm_num),
    show ((10:ℚ) * 2 ^ (52 - 3)) = ((5629499534213120 : ℤ) : ℚ) by norm_num,
    roundHalfEven_intCast]
  norm_num

/-- **C6 (amended).** For `size ≥ divisor` the formatter repeatedly divides
the running value by the divisor (1024 for binary units, 1000 otherwise) in
IEEE double arithmetic (`float_scaled` is the sequence of those quotients),
advancing through the unit letters `K,M,G,T,P,E,Z,Y`, stops at the first unit
`k` whose scaled value is below the divisor, and renders that scaled value
with the source's `"{:.2}"` format — two *significant* digits, not two
decimal places — followed by the unit label. -/
theorem file_size_str_scaled (size : Nat) (units : String) (k : Nat) (hk : k < 8)
    (hged : (if units = "binary" then 1024 else 1000) ≤ size)
    (hlow : ∀ j, j < k →
      (((if units = "binary" then 1024 else 1000) : Nat) : ℚ) ≤
        float_scaled (((if units = "binary" then 1024 else 1000) : Nat) : ℚ) (size : ℚ) j)
    (hbreak : float_scaled (((if units = "binary" then 1024 else 1000) : Nat) : ℚ)
        (size : ℚ) k < (((if units = "binary" then 1024 else 1000) : Nat) : ℚ)) :
    file_size_str (some size) units =
      some (pyFmt2 (float_scaled (((if units = "binary" then 1024 else 1000) : Nat) : ℚ)
          (size : ℚ) k) ++
        " " ++ String.mk ["KMGTPEZY".toList.getD k 'Y'] ++
        (if units = "binary" then "i" else "") ++ "B") := by
  have hnotlt : ¬ size < (if units = "binary" then 1024 else 1000) := not_lt.mpr hged
  have hloop := file_size_loop_eq
    ((((if units = "binary" then 1024 else 1000) : Nat)) : ℚ) "KMGTPEZY".toList k
    (size : ℚ)
    (by have h8 : ("KMGTPEZY".toList).length = 8 := by decide
        omega)
    (fun j hj => not_lt.mpr (hlow j hj)) hbreak
  by_cases hu : units = "binary"
  · simp only [hu, reduceIte] at hloop hnotlt ⊢
    simp only [file_size_str, reduceIte]
    rw [if_neg hnotlt, hloop]
  · simp only [if_neg hu] at hloop hnotlt ⊢
    simp only [file_size_str, if_neg hu]
    rw [if_neg hnotlt, hloop]

/-- **C6 (counterexample).** The claim's "renders that scaled value to two
decimal places" fails at `size = 10240` with binary units: the scaled value is
the double `10.0`, whose two-decimal-place rendering would be `"10.00 KiB"`,
but the source's `"{:.2}"` format yields `"1e+01 KiB"`. -/
theorem file_size_str_not_two_decimals :
    file_size_str (some 10240) "binary" = some "1e+01 KiB" ∧
    file_size_str (some 10240) "binary" ≠ some "10.00 KiB" := by
  have h0 : float_scaled ((1024 : Nat) : ℚ) ((10240 : Nat) : ℚ) 0 = 10 := by
    simp only [float_scaled]
    rw [show (((10240 : Nat) : ℚ) / ((1024 : Nat) : ℚ)) = 10 by norm_num, fl_ten]
  have hloop := file_size_loop_eq ((1024 : Nat) : ℚ) "KMGTPEZY".toList 0
    ((10240 : Nat) : ℚ) (by decide)
    (fun j hj => absurd hj (Nat.not_lt_zero j))
    (by rw [h0]; norm_num)
  have h : file_size_str (some 10240) "binary" = some "1e+01 KiB" := by
    simp only [file_size_str, reduceIte]
    rw [if_neg (by norm_num), hloop, h0, pyFmt2_ten]
    decide
  exact ⟨h, by rw [h]; decide⟩

/-- **C7.** For `size < divisor` the formatter renders an integer byte count,
with singular "Byte" exactly for `size = 1`; an absent size maps to an absent
output. -/
theorem file_size_str_small (size : Nat) (units : String)
    (h : size < if units = "binary" then 1024 else 1000) :
    file_size_str (some size) units =
      some (toString size ++ " " ++ (if size ≠ 1 then "Bytes" else "Byte")) ∧
    file_size_str none units = none := by
  constructor
  · simp only [file_size_str]
    rw [if_pos h]
  · rfl

/-- Witness for C7: `format(0, "binary") = "0 Bytes"`, `format(1, "binary") = "1 Byte"`,
and an absent size gives an absent output. -/
theorem file_size_str_small_witness :
    file_size_str (some 0) "binary" = some "0 Bytes" ∧
    file_size_str (some 1) "binary" = some "1 Byte" ∧
    file_size_str none "binary" = none := by
  have h0 := (file_size_str_small 0 "binary" (by norm_num)).1
  have h1 := (file_size_str_small 1 "binary" (by norm_num)).1
  have h2 := (file_size_str_small 0 "binary" (by norm_num)).2
  refine ⟨?_, ?_, h2⟩
  · rw [h0]; decide
  · rw [h1]; decide

/-- Witness for C6 (amended): `format(1024, "binary") = "1.0 KiB"` — a string
ending in "KiB" whose numeric value is `1.0`. -/
theorem file_size_str_scaled_witness :
    file_size_str (some 1024) "binary" = some "1.0 KiB" := by
  have h0 : float_scaled ((1024 : Nat) : ℚ) ((1024 : Nat) : ℚ) 0 = 1 := by
    simp only [float_scaled]
    rw [show (((1024 : Nat) : ℚ) / ((1024 : Nat) : ℚ)) = 1 by norm_num, fl_one]
  have h := file_size_str_scaled 1024 "binary" 0 (by norm_num) (by norm_num)
    (fun j hj => absurd hj (Nat.not_lt_zero j))
    (by simp only [reduceIte]; rw [h0]; norm_num)
  simp only [reduceIte] at h
  rw [h, h0, pyFmt2_one]
  decide

/-! ### Helper lemmas about the estimator -/

/-- `pyEncode` is determined by per-character encoding, so it distributes over
string concatenation. -/
theorem pyEncode_append (codec : String) (a b : List Char) :
    pyEncode codec (a ++ b) =
      match pyEncode codec a, pyEncode codec b with
      | some x, some y => some (x ++ y)
      | _, _ => none := by
  induction a with
  | nil =>
    cases hb : pyEncode codec b <;> simp [pyEncode, hb]
  | cons c a ih =>
    simp only [List.cons_append, pyEncode, List.append_eq]
    rw [ih]
    cases pyEncodeChar codec c <;> cases pyEncode codec a <;> cases pyEncode codec b <;>
      simp [List.append_assoc]

/-- Newline substitution distributes over concatenation. -/
theorem pyReplaceNewlines_append (a b le : List Char) :
    pyReplaceNewlines (a ++ b) le = pyReplaceNewlines a le ++ pyReplaceNewlines b le := by
  simp [pyReplaceNewlines]

/-- Newline substitution distributes over flattening a list of parts. -/
theorem pyReplaceNewlines_flatten (le : List Char) :
    ∀ parts : List (List Char),
      pyReplaceNewlines parts.flatten le = (parts.map (pyReplaceNewlines · le)).flatten := by
  intro parts
  induction parts with
  | nil => rfl
  | cons p parts ih =>
    simp only [List.flatten_cons, pyReplaceNewlines_append, ih, List.map_cons]

/-- Encoding the concatenation of parts that all encode yields the
concatenation of the per-part encodings. -/
theorem pyEncode_flatten (codec : String) :
    ∀ (parts : List (List Char)) (bl : List (List Nat)),
      parts.mapM (pyEncode codec) = some bl →
      pyEncode codec parts.flatten = some bl.flatten := by
  intro parts
  induction parts with
  | nil =>
    intro bl h
    simp only [List.mapM_nil, Option.pure_def, Option.some.injEq] at h
    subst h
    rfl
  | cons p parts ih =>
    intro bl h
    rw [List.mapM_cons] at h
    cases hp : pyEncode codec p with
    | none => rw [hp] at h; simp at h
    | some b =>
      rw [hp] at h
      cases hps : parts.mapM (pyEncode codec) with
      | none => rw [hps] at h; simp at h
      | some bs =>
        rw [hps] at h
        simp at h
        subst h
        rw [List.flatten_cons, pyEncode_append, hp, ih bs hps, List.flatten_cons]

/-- `mapM` over a mapped list composes the functions. -/
theorem mapM_map_option {α β γ : Type} (f : β → Option γ) (g : α → β) :
    ∀ l : List α, (l.map g).mapM f = l.mapM (fun a => f (g a)) := by
  intro l
  induction l with
  | nil => rfl
  | cons a l ih => rw [List.map_cons, List.mapM_cons, List.mapM_cons, ih]

/-- A `mapM` whose function succeeds on every element succeeds. -/
theorem mapM_isSome {α β : Type} (f : α → Option β) :
    ∀ l : List α, (∀ a ∈ l, (f a).isSome) → ∃ bs, l.mapM f = some bs := by
  intro l
  induction l with
  | nil => exact fun _ => ⟨[], rfl⟩
  | cons a l ih =>
    intro h
    obtain ⟨b, hb⟩ := Option.isSome_iff_exists.mp (h a (List.mem_cons_self a l))
    obtain ⟨bs, hbs⟩ := ih (fun x hx => h x (List.mem_cons_of_mem a hx))
    exact ⟨b :: bs, by rw [List.mapM_cons, hb, hbs]; rfl⟩

/-- The chunk texts generated by `rangesAux` concatenate, in order, to the
suffix of the buffer from the current position: the chunks cover the buffer
with no gaps or overlaps. -/
theorem rangesAux_texts (l : List Char) (bs : Nat) (hbs : 0 < bs) :
    ∀ (fuel i : Nat), l.length ≤ i + fuel →
      ((rangesAux fuel i l.length bs).map
          (fun p => (l.drop p.1).take (p.2 - p.1))).flatten = l.drop i := by
  intro fuel
  induction fuel with
  | zero =>
    intro i h
    simp only [rangesAux, List.map_nil, List.flatten_nil]
    exact (List.drop_eq_nil_of_le (by omega)).symm
  | succ fuel ih =>
    intro i h
    by_cases hi : i < l.length
    · simp only [rangesAux, if_pos hi, List.map_cons, List.flatten_cons]
      rw [ih (i + bs) (by omega)]
      have h1 : l.drop (i + bs) = (l.drop i).drop bs := by
        rw [List.drop_drop, Nat.add_comm]
      have h2 : (l.drop i).take (min (i + bs) l.length - i) = (l.drop i).take bs := by
        rcases le_or_lt (i + bs) l.length with hle | hlt
        · rw [min_eq_left hle]
          congr 1
          omega
        · rw [min_eq_right (le_of_lt hlt)]
          rw [List.take_of_length_le (by rw [List.length_drop]),
            List.take_of_length_le (by rw [List.length_drop]; omega)]
      rw [h2, h1, List.take_append_drop]
    · simp only [rangesAux, if_neg hi, List.map_nil, List.flatten_nil]
      exact (List.drop_eq_nil_of_le (by omega)).symm

/-- The chunk texts of `ranges 0 (view.size) BLOCK_SIZE` concatenate to the
whole buffer content. -/
theorem ranges_texts_cover (v : View) :
    ((ranges 0 v.size BLOCK_SIZE).map (fun p => v.substr p.1 p.2)).flatten = v.content := by
  have h := rangesAux_texts v.content BLOCK_SIZE (by norm_num [BLOCK_SIZE]) v.content.length 0
    (by omega)
  simpa [ranges, View.size, View.substr] using h

/-- If every chunk of the buffer encodes, the whole (newline-substituted)
buffer encodes to the concatenation of the chunk encodings. -/
theorem chunks_encode_whole (v : View) (enc : String) (le : List Char)
    (bl : List (List Nat))
    (h : (ranges 0 v.size BLOCK_SIZE).mapM
        (fun p => pyEncode enc (pyReplaceNewlines (v.substr p.1 p.2) le)) = some bl) :
    pyEncode enc (pyReplaceNewlines v.content le) = some bl.flatten := by
  rw [← ranges_texts_cover v, pyReplaceNewlines_flatten]
  apply pyEncode_flatten
  rw [List.map_map, mapM_map_option]
  exact h

/-- Running the scan over the chunk list (paired with its indices) when no
mutation is observed and every chunk encodes: the byte lengths accumulate and,
when `deflate` is set, so do the encoded bytes. -/
theorem scanChunks_encode_ok (v : View) (enc : String) (le : List Char) (deflate : Bool)
    (hhex : enc ≠ SPECIAL_HEXADECIMAL) (hvalid : validCodec enc = true)
    (stable : ∀ i, v.change_counts (i + 1) = v.change_counts 0) :
    ∀ (cs : List (Nat × Nat)) (n : Nat) (bl : List (List Nat)) (size : ℚ) (data : List Nat),
      cs.mapM (fun p => pyEncode enc (pyReplaceNewlines (v.substr p.1 p.2) le)) = some bl →
      scanChunks (v.change_counts 0) v enc le deflate (List.enumFrom n cs) size data =
        .ok (some (size + ((bl.map (fun b => (b.length : ℚ))).sum),
          if deflate then data ++ bl.flatten else data)) := by
  intro cs
  induction cs with
  | nil =>
    intro n bl size data h
    simp only [List.mapM_nil, Option.pure_def, Option.some.injEq] at h
    subst h
    simp [scanChunks, List.enumFrom]
  | cons c rest ih =>
    rcases c with ⟨s, t⟩
    intro n bl size data h
    rw [List.mapM_cons] at h
    cases hc : pyEncode enc (pyReplaceNewlines (v.substr s t) le) with
    | none => rw [hc] at h; simp at h
    | some b =>
      rw [hc] at h
      cases hrest : rest.mapM
          (fun p => pyEncode enc (pyReplaceNewlines (v.substr p.1 p.2) le)) with
      | none => rw [hrest] at h; simp at h
      | some bs =>
        rw [hrest] at h
        simp at h
        subst h
        simp only [List.enumFrom, scanChunks]
        rw [if_neg (by simp [stable n]), if_neg hhex, if_pos hvalid]
        simp only [hc]
        rw [ih (n + 1) bs (size + (b.length : ℚ)) _ hrest]
        cases deflate <;> simp [add_assoc, List.append_assoc]

/-- Hexadecimal digit counts add over concatenation. -/
theorem count_hex_digits_append (a b : List Char) :
    count_hex_digits (a ++ b) = count_hex_digits a + count_hex_digits b := by
  simp [count_hex_digits, List.filter_append]

/-- Hexadecimal digit counts of the parts sum to the count of the whole. -/
theorem count_hex_digits_flatten :
    ∀ parts : List (List Char),
      (parts.map count_hex_digits).sum = count_hex_digits parts.flatten := by
  intro parts
  induction parts with
  | nil => rfl
  | cons p parts ih =>
    simp only [List.map_cons, List.sum_cons, List.flatten_cons,
      count_hex_digits_append, ih]

/-- Running the scan in hexadecimal mode when no mutation is observed: half
the hex-digit count of every chunk accumulates exactly (no per-chunk
truncation), and the `deflate` accumulator is never written. -/
theorem scanChunks_hex_ok (v : View) (le : List Char) (deflate : Bool)
    (stable : ∀ i, v.change_counts (i + 1) = v.change_counts 0) :
    ∀ (cs : List (Nat × Nat)) (n : Nat) (size : ℚ) (data : List Nat),
      scanChunks (v.change_counts 0) v SPECIAL_HEXADECIMAL le deflate
          (List.enumFrom n cs) size data =
        .ok (some (size +
          ((cs.map (fun p => (count_hex_digits (v.substr p.1 p.2) : ℚ) / 2)).sum), data)) := by
  intro cs
  induction cs with
  | nil =>
    intro n size data
    simp [scanChunks, List.enumFrom]
  | cons c rest ih =>
    rcases c with ⟨s, t⟩
    intro n size data
    simp only [List.enumFrom, scanChunks]
    rw [if_neg (by simp [stable n])]
    simp only [if_true]
    rw [ih (n + 1) (size + (count_hex_digits (v.substr s t) : ℚ) / 2) data]
    simp [add_assoc]

/-- If some chunk fails to encode (and no mutation is observed before it), the
scan returns the `(None, None)`-signalling result. -/
theorem scanChunks_fail (v : View) (enc : String) (le : List Char) (deflate : Bool)
    (hhex : enc ≠ SPECIAL_HEXADECIMAL) (hvalid : validCodec enc = true)
    (stable : ∀ i, v.change_counts (i + 1) = v.change_counts 0) :
    ∀ (cs : List (Nat × Nat)) (n : Nat) (size : ℚ) (data : List Nat),
      (∃ p ∈ cs, pyEncode enc (pyReplaceNewlines (v.substr p.1 p.2) le) = none) →
      scanChunks (v.change_counts 0) v enc le deflate (List.enumFrom n cs) size data =
        .ok none := by
  intro cs
  induction cs with
  | nil =>
    intro n size data h
    simp at h
  | cons c rest ih =>
    rcases c with ⟨s, t⟩
    intro n size data h
    simp only [List.enumFrom, scanChunks]
    rw [if_neg (by simp [stable n]), if_neg hhex, if_pos hvalid]
    cases hc : pyEncode enc (pyReplaceNewlines (v.substr s t) le) with
    | none => rfl
    | some b =>
      simp only [hc]
      apply ih (n + 1)
      rcases h with ⟨p, hp, hnone⟩
      rcases List.mem_cons.mp hp with rfl | hmem
      · rw [hc] at hnone; exact absurd hnone (by simp)
      · exact ⟨p, hmem, hnone⟩

/-- If the revision check fails at position `p` of the chunk list, while every
earlier chunk passes its check and (in non-hex mode) its codec resolves and
its text encodes, the scan raises `ViewHasChanged`. -/
theorem scanChunks_abort (v : View) (enc : String) (le : List Char) (deflate : Bool) :
    ∀ (cs : List (Nat × Nat)) (n p : Nat) (size : ℚ) (data : List Nat),
      p < cs.length →
      v.change_counts (n + p + 1) ≠ v.change_counts 0 →
      (∀ j, j < p → v.change_counts (n + j + 1) = v.change_counts 0 ∧
        (enc = SPECIAL_HEXADECIMAL ∨ (validCodec enc = true ∧
          (pyEncode enc (pyReplaceNewlines
            (v.substr ((cs.getD j (0, 0)).1) ((cs.getD j (0, 0)).2)) le)).isSome))) →
      scanChunks (v.change_counts 0) v enc le deflate (List.enumFrom n cs) size data =
        .error PyExn.ViewHasChanged := by
  intro cs
  induction cs with
  | nil =>
    intro n p size data hp
    simp at hp
  | cons c rest ih =>
    rcases c with ⟨s, t⟩
    intro n p size data hp hbad hgood
    cases p with
    | zero =>
      simp only [List.enumFrom, scanChunks]
      rw [if_pos (by simpa using hbad)]
    | succ p =>
      have h0 := hgood 0 (Nat.succ_pos p)
      simp only [List.getD_cons_zero] at h0
      simp only [List.enumFrom, scanChunks]
      rw [if_neg (by simp [h0.1])]
      have hrec := ih (n + 1) p size
      by_cases hE : enc = SPECIAL_HEXADECIMAL
      · rw [if_pos hE]
        apply ih (n + 1) p _ _ (by simpa using hp)
          (by rwa [show n + 1 + p + 1 = n + (p + 1) + 1 by omega])
        intro j hj
        have hg := hgood (j + 1) (by omega)
        simpa [show n + (j + 1) + 1 = n + 1 + j + 1 by omega] using hg
      · rw [if_neg hE]
        rcases h0.2 with hc | ⟨hv, hsome⟩
        · exact absurd hc hE
        · rw [if_pos hv]
          obtain ⟨b, hb⟩ := Option.isSome_iff_exists.mp hsome
          simp only [hb]
          apply ih (n + 1) p _ _ (by simpa using hp)
            (by rwa [show n + 1 + p + 1 = n + (p + 1) + 1 by omega])
          intro j hj
          have hg := hgood (j + 1) (by omega)
          simpa [show n + (j + 1) + 1 = n + 1 + j + 1 by omega] using hg

/-- Shared evaluation of `estimate_file_size` in hexadecimal mode with a stable
revision counter: the exact half-count of hex digits accumulates, is truncated
once at the end, and the `deflate` accumulator remains the empty byte string. -/
theorem estimate_hex_aux (compress : List Nat → List Nat) (v : View) (deflate : Bool)
    (le : String)
    (hle : LINE_ENDINGS_MAP.lookup v.line_endings = some le)
    (henc : ENCODING_MAP.lookup v.encoding = some SPECIAL_HEXADECIMAL)
    (stable : ∀ i, v.change_counts (i + 1) = v.change_counts 0) :
    estimate_file_size compress v deflate =
      .ok (some (count_hex_digits v.content / 2),
        if deflate then some ((compress []).length) else none) := by
  simp only [estimate_file_size, hle, henc, List.enum]
  rw [scanChunks_hex_ok v le.toList deflate stable _ 0 0 []]
  have hsum : ((ranges 0 v.size BLOCK_SIZE).map
      (fun p => (count_hex_digits (v.substr p.1 p.2) : ℚ) / 2)).sum =
      (count_hex_digits v.content : ℚ) / 2 := by
    have h1 : ((ranges 0 v.size BLOCK_SIZE).map
        (fun p => (count_hex_digits (v.substr p.1 p.2) : ℚ) / 2)).sum =
        ((ranges 0 v.size BLOCK_SIZE).map
          (fun p => (count_hex_digits (v.substr p.1 p.2) : ℚ))).sum / 2 := by
      simp only [div_eq_mul_inv, List.sum_map_mul_right]
    rw [h1]
    congr 1
    rw [← ranges_texts_cover v, ← count_hex_digits_flatten, Nat.cast_list_sum,
      List.map_map, List.map_map]
    rfl
  have hfloor : ⌊(count_hex_digits v.content : ℚ) / 2⌋.toNat =
      count_hex_digits v.content / 2 := by
    rw [show ((2:ℚ)) = ((2:ℕ):ℚ) by norm_num, Rat.floor_natCast_div_natCast,
      ← Int.natCast_div]
    exact Int.toNat_natCast _
  dsimp only
  rw [hsum, zero_add, hfloor]

/-- **C1.** If, at a chunk boundary the scan reaches (position `p`: every
earlier chunk passed its revision check and, outside hexadecimal mode, its
codec resolved and its text encoded), the revision counter no longer equals
the fencepost captured at the start, `estimate_file_size` raises the
distinguishable `ViewHasChanged` error — by constructor distinct from every
`.ok` result, in particular from the `.ok (none, none)` used for
configuration and encoding failures — and never returns a byte size computed
from the partial sum. -/
theorem estimate_aborts_on_mutation (compress : List Nat → List Nat) (v : View)
    (deflate : Bool) (le enc : String)
    (hle : LINE_ENDINGS_MAP.lookup v.line_endings = some le)
    (henc : ENCODING_MAP.lookup v.encoding = some enc)
    (p : Nat) (hp : p < (ranges 0 v.size BLOCK_SIZE).length)
    (hbad : v.change_counts (p + 1) ≠ v.change_counts 0)
    (hgood : ∀ j, j < p → v.change_counts (j + 1) = v.change_counts 0 ∧
      (enc = SPECIAL_HEXADECIMAL ∨ (validCodec enc = true ∧
        (pyEncode enc (pyReplaceNewlines
          (v.substr (((ranges 0 v.size BLOCK_SIZE).getD j (0, 0)).1)
            (((ranges 0 v.size BLOCK_SIZE).getD j (0, 0)).2)) le.toList)).isSome))) :
    estimate_file_size compress v deflate = .error PyExn.ViewHasChanged ∧
    ∀ r, estimate_file_size compress v deflate ≠ .ok r := by
  have habort := scanChunks_abort v enc le.toList deflate
    (ranges 0 v.size BLOCK_SIZE) 0 p 0 [] hp
    (by simpa using hbad)
    (fun j hj => by simpa using hgood j hj)
  constructor
  · simp only [estimate_file_size, hle, henc, List.enum]
    rw [habort]
  · intro r
    simp only [estimate_file_size, hle, henc, List.enum]
    rw [habort]
    simp

/-- Witness for C1: a two-character buffer whose revision counter advances
between the fencepost capture and the first chunk check is aborted with
`ViewHasChanged`. -/
theorem estimate_aborts_on_mutation_witness :
    estimate_file_size (fun l => l)
      ⟨['a', 'b'], fun k => k, "UTF-8", "Unix", none, true⟩ false =
      .error PyExn.ViewHasChanged := by
  exact (estimate_aborts_on_mutation (fun l => l)
    ⟨['a', 'b'], fun k => k, "UTF-8", "Unix", none, true⟩ false "\n" "utf-8"
    (by decide) (by decide) 0 (by decide) (by decide)
    (fun j hj => absurd hj (Nat.not_lt_zero j))).1

/-- **C2.** With a stable revision counter, a recognized non-hexadecimal
encoding and line ending whose codec name CPython resolves, and every chunk
encoding without error, the byte size returned by `estimate_file_size` equals
the length of the byte string
obtained by substituting every normalized newline of the whole buffer with the
resolved line-ending sequence and encoding the result under the resolved
encoding; the compressed size, when requested, is the compressed length of
exactly that byte string. -/
theorem estimate_file_size_exact (compress : List Nat → List Nat) (v : View)
    (deflate : Bool) (le enc : String)
    (hle : LINE_ENDINGS_MAP.lookup v.line_endings = some le)
    (henc : ENCODING_MAP.lookup v.encoding = some enc)
    (hhex : enc ≠ SPECIAL_HEXADECIMAL) (hvalid : validCodec enc = true)
    (stable : ∀ i, v.change_counts (i + 1) = v.change_counts 0)
    (hchunks : ∀ p ∈ ranges 0 v.size BLOCK_SIZE,
      (pyEncode enc (pyReplaceNewlines (v.substr p.1 p.2) le.toList)).isSome) :
    ∃ bytes, pyEncode enc (pyReplaceNewlines v.content le.toList) = some bytes ∧
      estimate_file_size compress v deflate =
        .ok (some bytes.length,
          if deflate then some ((compress bytes).length) else none) := by
  obtain ⟨bl, hbl⟩ := mapM_isSome
    (fun p => pyEncode enc (pyReplaceNewlines (v.substr p.1 p.2) le.toList))
    (ranges 0 v.size BLOCK_SIZE) hchunks
  refine ⟨bl.flatten, chunks_encode_whole v enc le.toList bl hbl, ?_⟩
  simp only [estimate_file_size, hle, henc, List.enum]
  rw [scanChunks_encode_ok v enc le.toList deflate hhex hvalid stable _ 0 bl 0 [] hbl]
  have hsum : ((bl.map (fun b => (b.length : ℚ))).sum) = ((bl.flatten.length : Nat) : ℚ) := by
    rw [List.length_flatten, Nat.cast_list_sum, List.map_map]
    rfl
  have hfloor : ⌊((bl.flatten.length : Nat) : ℚ)⌋.toNat = bl.flatten.length := by
    rw [Int.floor_natCast]
    exact Int.toNat_natCast _
  dsimp only
  rw [hsum, zero_add, hfloor]
  cases deflate <;> simp

/-- Witness for C2: the pure-ASCII buffer `"hello\nworld"` under UTF-8 with
Unix line endings is estimated at exactly 11 bytes. -/
theorem estimate_file_size_exact_witness :
    estimate_file_size (fun l => l)
      ⟨"hello\nworld".toList, fun _ => 0, "UTF-8", "Unix", none, true⟩ false =
      .ok (some 11, none) := by
  obtain ⟨bytes, hb, he⟩ := estimate_file_size_exact (fun l => l)
    ⟨"hello\nworld".toList, fun _ => 0, "UTF-8", "Unix", none, true⟩ false "\n" "utf-8"
    (by decide) (by decide) (by decide) (by decide) (fun i => rfl) (by decide)
  have hb2 : pyEncode "utf-8"
      (pyReplaceNewlines
        (View.content ⟨"hello\nworld".toList, fun _ => 0, "UTF-8", "Unix", none, true⟩)
        "\n".toList) =
      some [104, 101, 108, 108, 111, 10, 119, 111, 114, 108, 100] := by decide
  rw [hb2] at hb
  have hbytes : bytes = [104, 101, 108, 108, 111, 10, 119, 111, 114, 108, 100] :=
    (Option.some.inj hb).symm
  rw [hbytes] at he
  simpa using he

/-- **C3.** If either the buffer's encoding name or its line-ending name is
not a key of the corresponding fixed map, `estimate_file_size` returns
`(None, None)` immediately: the theorem holds for every content and every
revision-counter behaviour, so no chunk of the buffer is consulted. -/
theorem estimate_unknown_config (compress : List Nat → List Nat) (v : View)
    (deflate : Bool)
    (h : LINE_ENDINGS_MAP.lookup v.line_endings = none ∨
      ENCODING_MAP.lookup v.encoding = none) :
    estimate_file_size compress v deflate = .ok (none, none) := by
  rcases h with h | h
  · cases henc : ENCODING_MAP.lookup v.encoding <;>
      simp [estimate_file_size, h, henc]
  · cases hle : LINE_ENDINGS_MAP.lookup v.line_endings <;>
      simp [estimate_file_size, h, hle]

/-- Witness for C3: a view whose encoding name is not in `ENCODING_MAP` is not
estimated. -/
theorem estimate_unknown_config_witness :
    estimate_file_size (fun l => l)
      ⟨['x'], fun _ => 0, "Nope", "Unix", none, true⟩ false = .ok (none, none) := by
  exact estimate_unknown_config (fun l => l)
    ⟨['x'], fun _ => 0, "Nope", "Unix", none, true⟩ false (Or.inr (by decide))

/-- **C4.** Under a recognized non-hexadecimal encoding whose codec name
CPython resolves, with a stable revision counter, if some chunk's text (after
newline substitution) fails to encode — characters unrepresentable in that
codec — `estimate_file_size` returns `(None, None)`: no partial byte size
accumulated from other chunks is reported. -/
theorem estimate_encode_failure (compress : List Nat → List Nat) (v : View)
    (deflate : Bool) (le enc : String)
    (hle : LINE_ENDINGS_MAP.lookup v.line_endings = some le)
    (henc : ENCODING_MAP.lookup v.encoding = some enc)
    (hhex : enc ≠ SPECIAL_HEXADECIMAL) (hvalid : validCodec enc = true)
    (stable : ∀ i, v.change_counts (i + 1) = v.change_counts 0)
    (hfail : ∃ p ∈ ranges 0 v.size BLOCK_SIZE,
      pyEncode enc (pyReplaceNewlines (v.substr p.1 p.2) le.toList) = none) :
    estimate_file_size compress v deflate = .ok (none, none) := by
  simp only [estimate_file_size, hle, henc, List.enum]
  rw [scanChunks_fail v enc le.toList deflate hhex hvalid stable _ 0 0 [] hfail]

/-- Witness for C4: a buffer containing `€` under ISO 8859-1 cannot encode, so
no size is reported. -/
theorem estimate_encode_failure_witness :
    estimate_file_size (fun l => l)
      ⟨['a', '€'], fun _ => 0, "Western (ISO 8859-1)", "Unix", none, true⟩ false =
      .ok (none, none) := by
  exact estimate_encode_failure (fun l => l)
    ⟨['a', '€'], fun _ => 0, "Western (ISO 8859-1)", "Unix", none, true⟩ false
    "\n" "iso-8859-1" (by decide) (by decide) (by decide) (by decide) (fun i => rfl)
    ⟨(0, 2), by decide, by decide⟩

/-- **C5.** In hexadecimal mode with a stable revision counter, the estimator
adds the exact, unrounded `count / 2` for each chunk's hexadecimal digits and
truncates only once at the end, so the returned byte size is the total digit
count divided by two, rounded down. -/
theorem estimate_file_size_hex (compress : List Nat → List Nat) (v : View)
    (deflate : Bool) (le : String)
    (hle : LINE_ENDINGS_MAP.lookup v.line_endings = some le)
    (henc : ENCODING_MAP.lookup v.encoding = some SPECIAL_HEXADECIMAL)
    (stable : ∀ i, v.change_counts (i + 1) = v.change_counts 0) :
    estimate_file_size compress v deflate =
      .ok (some (count_hex_digits v.content / 2),
        if deflate then some ((compress []).length) else none) :=
  estimate_hex_aux compress v deflate le hle henc stable

/-- Witness for C5: a buffer holding exactly the five hex digits `12abc` (and
nothing else) is estimated at `5 / 2 = 2` bytes. -/
theorem estimate_file_size_hex_witness :
    estimate_file_size (fun l => l)
      ⟨"12abc".toList, fun _ => 0, "Hexadecimal", "Unix", none, true⟩ false =
      .ok (some 2, none) := by
  have h := estimate_file_size_hex (fun l => l)
    ⟨"12abc".toList, fun _ => 0, "Hexadecimal", "Unix", none, true⟩ false "\n"
    (by decide) (by decide) (fun i => rfl)
  rw [show count_hex_digits
      (View.content ⟨"12abc".toList, fun _ => 0, "Hexadecimal", "Unix", none, true⟩) / 2 =
      2 by decide] at h
  simpa using h

/-- **C10.** When compression is requested in hexadecimal mode, the hex branch
never writes to the compression accumulator, so the reported compressed size
is the length of the compression of the empty byte string — for every buffer
content, independent of the uncompressed estimate. -/
theorem estimate_hex_deflate_constant (compress : List Nat → List Nat) (v : View)
    (le : String)
    (hle : LINE_ENDINGS_MAP.lookup v.line_endings = some le)
    (henc : ENCODING_MAP.lookup v.encoding = some SPECIAL_HEXADECIMAL)
    (stable : ∀ i, v.change_counts (i + 1) = v.change_counts 0) :
    estimate_file_size compress v true =
      .ok (some (count_hex_digits v.content / 2), some ((compress []).length)) := by
  have h := estimate_hex_aux compress v true le hle henc stable
  simpa using h

/-- Witness for C10: with a compressor that prepends one byte (so
`compress [] = [0]`), a hexadecimal buffer's compressed size is reported as
`1`, from the empty accumulator, regardless of its five-digit content. -/
theorem estimate_hex_deflate_constant_witness :
    estimate_file_size (fun l => 0 :: l)
      ⟨"12abc".toList, fun _ => 0, "Hexadecimal", "Unix", none, true⟩ true =
      .ok (some 2, some 1) := by
  have h := estimate_hex_deflate_constant (fun l => 0 :: l)
    ⟨"12abc".toList, fun _ => 0, "Hexadecimal", "Unix", none, true⟩ "\n"
    (by decide) (by decide) (fun i => rfl)
  rw [show count_hex_digits
      (View.content ⟨"12abc".toList, fun _ => 0, "Hexadecimal", "Unix", none, true⟩) / 2 =
      2 by decide] at h
  simpa using h

/-- **C8 (amended).** Unrecognized encoding or line ending and unencodable
content (both reported by the estimator as `(None, None)`) and a failed
filesystem size read all erase the buffer's status entry.  A concurrent
mutation detected mid-scan (`ViewHasChanged`), however, makes
`update_file_size` return without touching the status surface: the previous
status value is left in place, not erased.  In these cases no error message
is shown (the separate `LookupError` of an unresolvable codec is not caught
and propagates, as the `.error` result of the model). -/
theorem update_file_size_error_handling (compress : List Nat → List Nat)
    (getsize : String → Option Nat) (read_bytes : String → Option (List Nat))
    (settings : Settings) (v : View) (status : Option String) :
    ((v.file_name = none ∨ v.file_name = some "" ∨ v.is_dirty = true) →
      settings.estimate_file_size = true →
      estimate_file_size compress v settings.deflate = .ok (none, none) →
      update_file_size compress getsize read_bytes settings v status = .ok none) ∧
    (∀ path, v.file_name = some path → path ≠ "" → v.is_dirty = false →
      getsize path = none →
      update_file_size compress getsize read_bytes settings v status = .ok none) ∧
    ((v.file_name = none ∨ v.file_name = some "" ∨ v.is_dirty = true) →
      settings.estimate_file_size = true →
      estimate_file_size compress v settings.deflate = .error PyExn.ViewHasChanged →
      update_file_size compress getsize read_bytes settings v status = .ok status) := by
  refine ⟨?_, ?_, ?_⟩
  · intro hpath hset hest
    rcases hpath with h | h | h <;>
      [skip; skip; cases hf : v.file_name] <;>
      simp_all [update_file_size]
  · intro path hpath hne hdirty hget
    simp [update_file_size, hpath, hne, hdirty, hget]
  · intro hpath hset hest
    rcases hpath with h | h | h <;>
      [skip; skip; cases hf : v.file_name] <;>
      simp_all [update_file_size]

/-- Witness for C8 (amended): with default settings, an unknown encoding and a
missing file each erase the status, while a mid-scan mutation leaves the
previous status value in place. -/
theorem update_file_size_error_handling_witness :
    update_file_size (fun l => l) (fun _ => none) (fun _ => none) {}
      ⟨['x'], fun _ => 0, "Nope", "Unix", none, true⟩ (some "OLD") = .ok none ∧
    update_file_size (fun l => l) (fun _ => none) (fun _ => none) {}
      ⟨['x'], fun _ => 0, "UTF-8", "Unix", some "/f", false⟩ (some "OLD") = .ok none ∧
    update_file_size (fun l => l) (fun _ => none) (fun _ => none) {}
      ⟨['a', 'b'], fun k => k, "UTF-8", "Unix", none, true⟩ (some "OLD") =
      .ok (some "OLD") := by
  refine ⟨?_, ?_, ?_⟩
  · exact (update_file_size_error_handling (fun l => l) (fun _ => none) (fun _ => none) {}
      ⟨['x'], fun _ => 0, "Nope", "Unix", none, true⟩ (some "OLD")).1
      (Or.inl rfl) rfl (by decide)
  · exact (update_file_size_error_handling (fun l => l) (fun _ => none) (fun _ => none) {}
      ⟨['x'], fun _ => 0, "UTF-8", "Unix", some "/f", false⟩ (some "OLD")).2.1
      "/f" rfl (by decide) rfl rfl
  · exact (update_file_size_error_handling (fun l => l) (fun _ => none) (fun _ => none) {}
      ⟨['a', 'b'], fun k => k, "UTF-8", "Unix", none, true⟩ (some "OLD")).2.2
      (Or.inl rfl) rfl (by decide)

/-- **C8 (counterexample).** The claim that *every* error condition erases the
status entry fails for concurrent mutation: on a buffer whose revision counter
advances mid-scan, `update_file_size` returns early and the previously shown
status value survives instead of being erased. -/
theorem update_keeps_status_on_mutation :
    update_file_size (fun l => l) (fun _ => none) (fun _ => none) {}
      ⟨['a', 'b'], fun k => k, "UTF-8", "Unix", none, true⟩ (some "5 Bytes") =
      .ok (some "5 Bytes") ∧
    update_file_size (fun l => l) (fun _ => none) (fun _ => none) {}
      ⟨['a', 'b'], fun k => k, "UTF-8", "Unix", none, true⟩ (some "5 Bytes") ≠
      .ok none := by
  constructor
  · decide
  · decide

/-- **C9.** Three modification events on the same buffer inside one debounce
window (each scheduling one delayed check, so the three increments precede the
three checks) bring the pending-call counter to `3`; the first two checks
execute nothing, the third — which returns the counter to zero — deletes the
map entry and runs exactly one estimate-and-display cycle, observing the
buffer's final revision `3`. -/
theorem debounce_three_events :
    cacheGet (on_modified (on_modified (on_modified debounceInit 0) 0) 0).call_cache 0 = 3 ∧
    (on_modified (on_modified (on_modified debounceInit 0) 0) 0).rev = 3 ∧
    (check_call (on_modified (on_modified (on_modified debounceInit 0) 0) 0) 0).runs = [] ∧
    (check_call (check_call
      (on_modified (on_modified (on_modified debounceInit 0) 0) 0) 0) 0).runs = [] ∧
    (check_call (check_call (check_call
      (on_modified (on_modified (on_modified debounceInit 0) 0) 0) 0) 0) 0).runs =
      [(0, 3)] ∧
    (check_call (check_call (check_call
      (on_modified (on_modified (on_modified debounceInit 0) 0) 0) 0) 0) 0).call_cache =
      [] := by
  decide
